import Mathlib

/-!
# ShipInfoDisplay (Endless Sky): a shallow embedding

The C++ class `ShipInfoDisplay` turns a ship, a depreciation model and a day
into lists of label/value strings and running pixel heights.  This file embeds
`UpdateAttributes`, `UpdateOutfits` and `Update` as Lean functions and proves
properties of them.

Modelling conventions.

* `double` is idealised as exact rational arithmetic (`ℚ`): rounding is
  outside the model.  A `double` used as a condition is the test `≠ 0`.  The
  one way the code makes an infinity or a NaN out of finite numbers is a
  division by zero, in a quotient handed to `Format::Number`; such a call is
  `Env.NumberQuotient`, which formats the rational quotient when the divisor is
  not zero and otherwise returns whatever `Format::Number` prints for the
  non-finite result.
* `int` and `int64_t` are unbounded integers (`Int`); signed overflow, which is
  undefined in C++, is outside the model.  The one integer division of the code
  is fallible (`div64`): a zero divisor has no result.
* `std::map<std::string, V>` is an association list kept in strictly ascending
  key order; `std::string` comparison is byte-wise lexicographic, which for
  UTF-8 text is the code-point order of `String`.
* `std::vector<std::string>` is `List String`; `push_back` appends at the end.
* Collaborators whose code is not part of the file (`Format::Number`, the table
  `Outfit::ATTRIBUTES`, `GameData::Ships()`, the two overloads of
  `Depreciation::Value`, `UpdateDescription`) are parameters.
-/

namespace ShipInfoDisplay

/-! ## `std::map<std::string, V>` -/

/-- An ordered map with string keys, as its sequence of entries in iteration order. -/
abbrev StdMap (V : Type) := List (String × V)

namespace StdMap

variable {V : Type}

/-- The keys in iteration order. -/
def keys (m : StdMap V) : List String := m.map Prod.fst

/-- The map invariant: keys strictly ascending (hence unique). -/
def WF (m : StdMap V) : Prop := (keys m).Pairwise (· < ·)

instance decidableWF (m : StdMap V) : Decidable (WF m) :=
  inferInstanceAs (Decidable ((keys m).Pairwise (· < ·)))

/-- The entry found by `find(k)`, if any. -/
def find (m : StdMap V) (k : String) : Option V := List.lookup k m

/-- Reading `m[k]`: the stored value, or the value-initialised `dflt` that
`operator[]` inserts for a missing key. -/
def get (dflt : V) (m : StdMap V) (k : String) : V := (find m k).getD dflt

/-- The statement `m[k] = f(m[k])` (for instance `m[k] += x` or `m[k] = v`):
`operator[]` finds the entry or inserts `dflt` at its sorted position, then the
entry is updated in place. -/
def modify (f : V → V) (dflt : V) (k : String) : StdMap V → StdMap V
  | [] => [(k, f dflt)]
  | (k', v) :: rest =>
    if k < k' then (k, f dflt) :: (k', v) :: rest
    else if k = k' then (k', f v) :: rest
    else (k', v) :: modify f dflt k rest

end StdMap

/-! ## The collaborators -/

/-- The part of `Outfit` that the display reads. -/
structure Outfit where
  /-- `Name()` -/
  Name : String := ""
  /-- `Category()` -/
  Category : String := ""
  /-- `Attributes()`: the attribute map, key to value. -/
  Attributes : StdMap ℚ := []
  /-- `Licenses()` -/
  Licenses : List String := []
  /-- `IsWeapon()` -/
  IsWeapon : Bool := false
  /-- `Reload()` -/
  Reload : ℚ := 0
  /-- `FiringEnergy()` -/
  FiringEnergy : ℚ := 0
  /-- `FiringHeat()` -/
  FiringHeat : ℚ := 0
deriving DecidableEq

/-- Modelled from the spec: `Outfit::Get(key)`, whose body is not in the file.
The spec describes it as the lookup in the attribute map of the outfit, a
missing key being read as zero. -/
def Outfit.Get (o : Outfit) (k : String) : ℚ := StdMap.get 0 o.Attributes k

/-- The part of `Ship` that the display reads. -/
structure Ship where
  /-- `Name()` -/
  Name : String := ""
  /-- `ModelName()` -/
  ModelName : String := ""
  /-- `Description()` -/
  Description : String := ""
  /-- `GetPlanet()` is not null. -/
  GetPlanet : Bool := false
  /-- `Attributes()`: the attributes with all outfits applied. -/
  Attributes : Outfit := {}
  /-- `BaseAttributes()`: the attributes of the bare hull. -/
  BaseAttributes : Outfit := {}
  /-- `Outfits()`: a `map<const Outfit *, int>`, as its entries in iteration
  (pointer) order. -/
  Outfits : List (Outfit × Int) := []
  /-- `Cost()` -/
  Cost : Int := 0
  /-- `Mass()` -/
  Mass : ℚ := 0
  /-- `Cargo().Used()` -/
  CargoUsed : Int := 0
  /-- `RequiredCrew()` -/
  RequiredCrew : Int := 0
  /-- `Fuel()` -/
  Fuel : ℚ := 0
  /-- `CoolingEfficiency()` -/
  CoolingEfficiency : ℚ := 0
  /-- `HeatDissipation()` -/
  HeatDissipation : ℚ := 0
  /-- `MaximumHeat()` -/
  MaximumHeat : ℚ := 0
  /-- `BaysFree(isFighter)` -/
  BaysFree : Bool → Int := fun _ => 0

/-- The depreciation model, with the two overloads of `Value` that the display
calls. -/
structure Depreciation where
  /-- `Value(const Ship &ship, int day)`: the overload called with the ship
  itself (lines 152 and 390). -/
  Value : Ship → Int → Int
  /-- `Value(const Ship *ship, int day)`: the overload called with the pointer
  that `GameData::Ships().Get` returns for the base model (line 391). -/
  ValueOfModel : Ship → Int → Int

/-- The global collaborators of the display. -/
structure Env where
  /-- `Format::Number` on a finite number. -/
  Number : ℚ → String
  /-- `Format::Number` on the infinity or NaN that the division of the given
  dividend by zero yields. -/
  NumberNonFinite : ℚ → String
  /-- `Outfit::ATTRIBUTES.at(key)`: the display name of an attribute key.  The
  table is taken to hold every key it is asked for. -/
  ATTRIBUTES : String → String
  /-- `GameData::Ships().Get(name)` -/
  Ships : String → Ship
  /-- `UpdateDescription(description, licenses, isShip)` of the base class: the
  description height it leaves, given the one it found. -/
  UpdateDescription : String → List String → Bool → Int → Int

/-- The call `Format::Number(a / b)` on doubles: the quotient is formatted when
the divisor is not zero; a zero divisor makes the quotient an infinity or a
NaN, and the result is what `Format::Number` prints for that. -/
def Env.NumberQuotient (E : Env) (a b : ℚ) : String :=
  if b = 0 then E.NumberNonFinite a else E.Number (a / b)

/-- The fields of the display object. -/
structure Display where
  descriptionHeight : Int := 0
  maximumHeight : Int := 0
  attributeLabels : List String := []
  attributeValues : List String := []
  attributesHeight : Int := 0
  tableLabels : List String := []
  energyTable : List String := []
  heatTable : List String := []
  outfitLabels : List String := []
  outfitValues : List String := []
  outfitsHeight : Int := 0
  saleLabels : List String := []
  saleValues : List String := []
  saleHeight : Int := 0
deriving DecidableEq

/-! ## `UpdateAttributes` -/

/-- Lines 131-133 and 135-137: the loop `for(a : src) m[a.first] = a.second`
that copies an attribute map into a fresh local map. -/
def copyAttributes (src : StdMap ℚ) : StdMap ℚ :=
  src.foldl (fun m a => StdMap.modify (fun _ => a.2) 0 a.1 m) []

/-- Lines 140-148, the outfit loop: every installed outfit adds
`quantity * value` under each of its attribute keys whose value `Get` reports
as positive. -/
def addOutfits (outfits : List (Outfit × Int)) (attributeMapBase : StdMap ℚ) : StdMap ℚ :=
  outfits.foldl
    (fun m o =>
      o.1.Attributes.foldl
        (fun m a =>
          let attval := o.1.Get a.1
          if attval > 0 then StdMap.modify (fun x => x + (o.2 : ℚ) * attval) 0 a.1 m
          else m)
        m)
    attributeMapBase

/-- Lines 128-148, `attributeMapBase` right after the outfit loop. -/
def attributeMapBase (ship : Ship) : StdMap ℚ :=
  addOutfits ship.Outfits (copyAttributes ship.BaseAttributes.Attributes)

/-- Lines 129-137, `attributeMapUsed`: a copy of the applied attributes. -/
def attributeMapUsed (ship : Ship) : StdMap ℚ :=
  copyAttributes ship.Attributes.Attributes

/-- Line 262: the attribute keys shown as `used / capacity`. -/
def atts : List String :=
  ["minibays", "bays", "outfit space", "armory space", "weapon capacity",
   "engine capacity", "gun ports", "turret mounts"]

/-- The `int64_t` division of line 159: truncating, and without a result when
the divisor is zero. -/
def div64 (a b : Int) : Option Int :=
  if b = 0 then none else some (a.tdiv b)

/-- Lines 327-334: the accumulation of `firingEnergy` and `firingHeat` over the
installed outfits. -/
def firingLoop (outfits : List (Outfit × Int)) : ℚ × ℚ :=
  outfits.foldl
    (fun (acc : ℚ × ℚ) it =>
      if it.1.IsWeapon && it.1.Reload ≠ 0 then
        (acc.1 + (it.2 : ℚ) * it.1.FiringEnergy / it.1.Reload,
         acc.2 + (it.2 : ℚ) * it.1.FiringHeat / it.1.Reload)
      else acc)
    (0, 0)

/-- Lines 273-285: the loop over `atts`, on the three variables it changes
(`attributeLabels`, `attributeValues`, `attributesHeight`). -/
def slotLoop (E : Env) (base used : StdMap ℚ) (keys : List String)
    (init : List String × List String × Int) : List String × List String × Int :=
  keys.foldl
    (fun acc k =>
      if StdMap.get 0 base k > 0 then
        (acc.1 ++ [E.ATTRIBUTES k ++ ":"],
         acc.2.1 ++ [E.Number (StdMap.get 0 used k) ++ " / " ++ E.Number (StdMap.get 0 base k)],
         acc.2.2 + 20)
      else acc)
    init

/-- Lines 115-353, `ShipInfoDisplay::UpdateAttributes`.  The three attribute
variables and the three table variables are threaded through the statements in
source order; the result is the display with these six fields replaced.  There
is no result when the percentage of line 159 divides by zero. -/
def UpdateAttributes (E : Env) (ship : Ship) (depreciation : Depreciation) (day : Int)
    (self : Display) : Option Display := do
  let isGeneric : Bool := ship.Name.isEmpty || ship.GetPlanet
  let attributeLabels : List String := []
  let attributeValues : List String := []
  let attributesHeight : Int := 20
  let attributes := ship.Attributes
  let attributeMapBase := attributeMapBase ship
  let attributeMapUsed := attributeMapUsed ship
  -- lines 151-163: the cost line
  let fullCost := ship.Cost
  let depreciated := depreciation.Value ship day
  let attributeLabels ←
    if depreciated = fullCost then pure (attributeLabels ++ ["cost:"])
    else do
      let percent ← div64 (100 * depreciated) fullCost
      pure (attributeLabels ++ ["cost (" ++ toString percent ++ "%):"])
  let attributeValues := attributeValues ++ [E.Number depreciated]
  let attributesHeight := attributesHeight + 20
  -- lines 165-167: spacer
  let attributeLabels := attributeLabels ++ [""]
  let attributeValues := attributeValues ++ [""]
  let attributesHeight := attributesHeight + 10
  -- lines 169-182: shields
  let attributeLabels := attributeLabels ++ ["Shields:"]
  let attributeValues :=
    if StdMap.get 0 attributeMapBase "shield generation" ≠ 0 then
      attributeValues ++ [E.Number (StdMap.get 0 attributeMapBase "shields")
        ++ " ( "
        ++ E.Number (60 * StdMap.get 0 attributeMapBase "shield generation")
        ++ " )"]
    else
      attributeValues ++ [E.Number (StdMap.get 0 attributeMapBase "shields")]
  let attributesHeight := attributesHeight + 20
  -- lines 185-198: hull
  let attributeLabels := attributeLabels ++ ["Hull:"]
  let attributeValues :=
    if StdMap.get 0 attributeMapBase "hull repair rate" ≠ 0 then
      attributeValues ++ [E.Number (StdMap.get 0 attributeMapBase "hull")
        ++ " ( "
        ++ E.Number (60 * StdMap.get 0 attributeMapBase "hull repair rate")
        ++ " )"]
    else
      attributeValues ++ [E.Number (StdMap.get 0 attributeMapBase "hull")]
  let attributesHeight := attributesHeight + 20
  -- lines 201-223: mass, cargo, crew, fuel
  let emptyMass := ship.Mass
  let attributeLabels := attributeLabels ++ [if isGeneric then "mass with no cargo:" else "mass:"]
  let attributeValues := attributeValues ++ [E.Number emptyMass]
  let attributesHeight := attributesHeight + 20
  let attributeLabels := attributeLabels ++ [if isGeneric then "cargo space:" else "cargo:"]
  let attributeValues :=
    if isGeneric then
      attributeValues ++ [E.Number (attributes.Get "cargo space")]
    else
      attributeValues ++ [E.Number (ship.CargoUsed : ℚ)
        ++ " / " ++ E.Number (attributes.Get "cargo space")]
  let attributesHeight := attributesHeight + 20
  let attributeLabels := attributeLabels ++ ["required crew / bunks:"]
  let attributeValues := attributeValues ++ [E.Number (ship.RequiredCrew : ℚ)
    ++ " / " ++ E.Number (attributes.Get "bunks")]
  let attributesHeight := attributesHeight + 20
  let attributeLabels := attributeLabels ++ [if isGeneric then "fuel capacity:" else "fuel:"]
  let fuelCapacity := attributes.Get "fuel capacity"
  let attributeValues :=
    if isGeneric then
      attributeValues ++ [E.Number fuelCapacity]
    else
      attributeValues ++ [E.Number (ship.Fuel * fuelCapacity)
        ++ " / " ++ E.Number fuelCapacity]
  let attributesHeight := attributesHeight + 20
  -- lines 225-252: movement
  let fullMass : ℚ :=
    emptyMass + (if isGeneric then attributes.Get "cargo space" else (ship.CargoUsed : ℚ))
  let isGeneric : Bool := isGeneric && decide (fullMass ≠ emptyMass)
  let forwardThrust : ℚ :=
    if attributes.Get "thrust" ≠ 0 then attributes.Get "thrust"
    else attributes.Get "afterburner thrust"
  let attributeLabels := attributeLabels ++ [""]
  let attributeValues := attributeValues ++ [""]
  let attributesHeight := attributesHeight + 10
  let attributeLabels :=
    attributeLabels ++ [if isGeneric then "movement, full / no cargo:" else "movement:"]
  let attributeValues := attributeValues ++ [""]
  let attributesHeight := attributesHeight + 20
  let attributeLabels := attributeLabels ++ ["max speed:"]
  let attributeValues :=
    attributeValues ++ [E.NumberQuotient (60 * forwardThrust) (attributes.Get "drag")]
  let attributesHeight := attributesHeight + 20
  let attributeLabels := attributeLabels ++ ["acceleration:"]
  let attributeValues :=
    if !isGeneric then
      attributeValues ++ [E.NumberQuotient (3600 * forwardThrust) fullMass]
    else
      attributeValues ++ [E.NumberQuotient (3600 * forwardThrust) fullMass
        ++ " / " ++ E.NumberQuotient (3600 * forwardThrust) emptyMass]
  let attributesHeight := attributesHeight + 20
  let attributeLabels := attributeLabels ++ ["turning:"]
  let attributeValues :=
    if !isGeneric then
      attributeValues ++ [E.NumberQuotient (60 * attributes.Get "turn") fullMass]
    else
      attributeValues ++ [E.NumberQuotient (60 * attributes.Get "turn") fullMass
        ++ " / " ++ E.NumberQuotient (60 * attributes.Get "turn") emptyMass]
  let attributesHeight := attributesHeight + 20
  -- lines 255-258: spacer
  let attributeLabels := attributeLabels ++ [""]
  let attributeValues := attributeValues ++ [""]
  let attributesHeight := attributesHeight + 10
  -- lines 261-285: the slot attributes
  let slots := slotLoop E attributeMapBase attributeMapUsed atts
    (attributeLabels, attributeValues, attributesHeight)
  let attributeLabels := slots.1
  let attributeValues := slots.2.1
  let attributesHeight := slots.2.2
  -- lines 287-298: free bays
  let attributeLabels :=
    if ship.BaysFree false ≠ 0 then attributeLabels ++ ["drone bays:"] else attributeLabels
  let attributeValues :=
    if ship.BaysFree false ≠ 0 then attributeValues ++ [toString (ship.BaysFree false)]
    else attributeValues
  let attributesHeight :=
    if ship.BaysFree false ≠ 0 then attributesHeight + 20 else attributesHeight
  let attributeLabels :=
    if ship.BaysFree true ≠ 0 then attributeLabels ++ ["fighter bays:"] else attributeLabels
  let attributeValues :=
    if ship.BaysFree true ≠ 0 then attributeValues ++ [toString (ship.BaysFree true)]
    else attributeValues
  let attributesHeight :=
    if ship.BaysFree true ≠ 0 then attributesHeight + 20 else attributesHeight
  -- lines 300-304: the table is cleared; a spacer and the table header are skipped
  let tableLabels : List String := []
  let energyTable : List String := []
  let heatTable : List String := []
  let attributesHeight := attributesHeight + 30
  -- lines 306-316: idle
  let tableLabels := tableLabels ++ ["idle:"]
  let energyTable := energyTable ++ [E.Number
    (60 * (attributes.Get "energy generation"
      + attributes.Get "solar collection"
      - attributes.Get "energy consumption"
      - attributes.Get "cooling energy"))]
  let efficiency := ship.CoolingEfficiency
  let heatTable := heatTable ++ [E.Number
    (60 * (attributes.Get "heat generation"
      - efficiency * (attributes.Get "cooling" + attributes.Get "active cooling")))]
  let attributesHeight := attributesHeight + 20
  -- lines 317-326: moving
  let tableLabels := tableLabels ++ ["moving:"]
  let energyTable := energyTable ++ [E.Number
    (-60 * (max (attributes.Get "thrusting energy") (attributes.Get "reverse thrusting energy")
      + attributes.Get "turning energy"
      + attributes.Get "afterburner energy"))]
  let heatTable := heatTable ++ [E.Number
    (60 * (max (attributes.Get "thrusting heat") (attributes.Get "reverse thrusting heat")
      + attributes.Get "turning heat"
      + attributes.Get "afterburner heat"))]
  let attributesHeight := attributesHeight + 20
  -- lines 327-338: firing
  let firing := firingLoop ship.Outfits
  let firingEnergy := firing.1
  let firingHeat := firing.2
  let tableLabels := tableLabels ++ ["firing:"]
  let energyTable := energyTable ++ [E.Number (-60 * firingEnergy)]
  let heatTable := heatTable ++ [E.Number (60 * firingHeat)]
  let attributesHeight := attributesHeight + 20
  -- lines 339-347: shields and hull
  let shieldEnergy := attributes.Get "shield energy"
  let hullEnergy := attributes.Get "hull energy"
  let tableLabels := tableLabels ++
    [if shieldEnergy ≠ 0 ∧ hullEnergy ≠ 0 then "shields / hull:"
     else if hullEnergy ≠ 0 then "repairing hull:" else "charging shields:"]
  let energyTable := energyTable ++ [E.Number (-60 * (shieldEnergy + hullEnergy))]
  let shieldHeat := attributes.Get "shield heat"
  let hullHeat := attributes.Get "hull heat"
  let heatTable := heatTable ++ [E.Number (60 * (shieldHeat + hullHeat))]
  let attributesHeight := attributesHeight + 20
  -- lines 348-352: max, padded by 10 pixels on the top and bottom
  let tableLabels := tableLabels ++ ["max:"]
  let energyTable := energyTable ++ [E.Number (attributes.Get "energy capacity")]
  let heatTable := heatTable ++ [E.Number (60 * ship.HeatDissipation * ship.MaximumHeat)]
  let attributesHeight := attributesHeight + 30
  pure { self with
    attributeLabels := attributeLabels
    attributeValues := attributeValues
    attributesHeight := attributesHeight
    tableLabels := tableLabels
    energyTable := energyTable
    heatTable := heatTable }

/-! ### The local variables of `UpdateAttributes`, as functions of the ship -/

/-- Line 117: `isGeneric` as first computed, the ship has no name or is docked. -/
def isGeneric (ship : Ship) : Bool := ship.Name.isEmpty || ship.GetPlanet

/-- Line 225: `fullMass`. -/
def fullMass (ship : Ship) : ℚ :=
  ship.Mass + (if isGeneric ship then ship.Attributes.Get "cargo space" else (ship.CargoUsed : ℚ))

/-- Line 226: `isGeneric` after it is narrowed to ships whose full mass differs
from their empty mass. -/
def isGenericMovement (ship : Ship) : Bool :=
  isGeneric ship && decide (fullMass ship ≠ ship.Mass)

/-- Line 227: `forwardThrust`. -/
def forwardThrust (ship : Ship) : ℚ :=
  if ship.Attributes.Get "thrust" ≠ 0 then ship.Attributes.Get "thrust"
  else ship.Attributes.Get "afterburner thrust"

/-- The keys of `atts` for which the test of line 275 succeeds: the aggregated
capacity is strictly positive. -/
def shownSlots (ship : Ship) : List String :=
  atts.filter (fun k => 0 < StdMap.get 0 (attributeMapBase ship) k)

/-- Lines 277-282: the label and the value pushed for the slot key `k`. -/
def slotLine (E : Env) (ship : Ship) (k : String) : String × String :=
  (E.ATTRIBUTES k ++ ":",
   E.Number (StdMap.get 0 (attributeMapUsed ship) k)
     ++ " / " ++ E.Number (StdMap.get 0 (attributeMapBase ship) k))

/-- Lines 287-298: the labels and values pushed for the free bays. -/
def bayLines (ship : Ship) : List (String × String) :=
  (if ship.BaysFree false ≠ 0 then [("drone bays:", toString (ship.BaysFree false))] else [])
  ++ (if ship.BaysFree true ≠ 0 then [("fighter bays:", toString (ship.BaysFree true))] else [])

/-- Lines 153-161: the label of the cost line, when the percentage is defined. -/
def costLabel (ship : Ship) (depreciation : Depreciation) (day : Int) : String :=
  if depreciation.Value ship day = ship.Cost then "cost:"
  else "cost (" ++ toString ((100 * depreciation.Value ship day).tdiv ship.Cost) ++ "%):"

/-- Lines 151-258: the fourteen lines pushed before the slot loop, label and
value, in order. -/
def headLines (E : Env) (ship : Ship) (depreciation : Depreciation) (day : Int) :
    List (String × String) :=
  [(costLabel ship depreciation day, E.Number (depreciation.Value ship day)),
   ("", ""),
   ("Shields:",
     if StdMap.get 0 (attributeMapBase ship) "shield generation" ≠ 0 then
       E.Number (StdMap.get 0 (attributeMapBase ship) "shields") ++ " ( "
         ++ E.Number (60 * StdMap.get 0 (attributeMapBase ship) "shield generation") ++ " )"
     else E.Number (StdMap.get 0 (attributeMapBase ship) "shields")),
   ("Hull:",
     if StdMap.get 0 (attributeMapBase ship) "hull repair rate" ≠ 0 then
       E.Number (StdMap.get 0 (attributeMapBase ship) "hull") ++ " ( "
         ++ E.Number (60 * StdMap.get 0 (attributeMapBase ship) "hull repair rate") ++ " )"
     else E.Number (StdMap.get 0 (attributeMapBase ship) "hull")),
   (if isGeneric ship then "mass with no cargo:" else "mass:", E.Number ship.Mass),
   (if isGeneric ship then "cargo space:" else "cargo:",
     if isGeneric ship then E.Number (ship.Attributes.Get "cargo space")
     else E.Number (ship.CargoUsed : ℚ) ++ " / " ++ E.Number (ship.Attributes.Get "cargo space")),
   ("required crew / bunks:",
     E.Number (ship.RequiredCrew : ℚ) ++ " / " ++ E.Number (ship.Attributes.Get "bunks")),
   (if isGeneric ship then "fuel capacity:" else "fuel:",
     if isGeneric ship then E.Number (ship.Attributes.Get "fuel capacity")
     else E.Number (ship.Fuel * ship.Attributes.Get "fuel capacity") ++ " / "
       ++ E.Number (ship.Attributes.Get "fuel capacity")),
   ("", ""),
   (if isGenericMovement ship then "movement, full / no cargo:" else "movement:", ""),
   ("max speed:", E.NumberQuotient (60 * forwardThrust ship) (ship.Attributes.Get "drag")),
   ("acceleration:",
     if isGenericMovement ship then
       E.NumberQuotient (3600 * forwardThrust ship) (fullMass ship) ++ " / "
         ++ E.NumberQuotient (3600 * forwardThrust ship) ship.Mass
     else E.NumberQuotient (3600 * forwardThrust ship) (fullMass ship)),
   ("turning:",
     if isGenericMovement ship then
       E.NumberQuotient (60 * ship.Attributes.Get "turn") (fullMass ship) ++ " / "
         ++ E.NumberQuotient (60 * ship.Attributes.Get "turn") ship.Mass
     else E.NumberQuotient (60 * ship.Attributes.Get "turn") (fullMass ship)),
   ("", "")]

/-- Lines 341-342: the label of the fourth row of the energy and heat table. -/
def regenLabel (ship : Ship) : String :=
  if ship.Attributes.Get "shield energy" ≠ 0 ∧ ship.Attributes.Get "hull energy" ≠ 0 then
    "shields / hull:"
  else if ship.Attributes.Get "hull energy" ≠ 0 then "repairing hull:"
  else "charging shields:"

/-- A line is a spacer when its label and its value are both empty. -/
def isSpacer (line : String × String) : Bool := line.1 == "" && line.2 == ""

/-- The number of spacer lines of a list. -/
def spacerCount (lines : List (String × String)) : Int := (lines.filter isSpacer).length

/-- The number of lines of a list that are not spacers. -/
def lineCount (lines : List (String × String)) : Int :=
  (lines.filter (fun l => !isSpacer l)).length

/-- The attribute list as label/value pairs. -/
def Display.attributeLines (d : Display) : List (String × String) :=
  d.attributeLabels.zip d.attributeValues

/-- The outfit list as label/value pairs. -/
def Display.outfitLines (d : Display) : List (String × String) :=
  d.outfitLabels.zip d.outfitValues

/-- The sale list as label/value pairs. -/
def Display.saleLines (d : Display) : List (String × String) :=
  d.saleLabels.zip d.saleValues

/-! ## `UpdateOutfits` -/

/-- Lines 363-365: the listing, category to name to summed quantity. -/
def listing (outfits : List (Outfit × Int)) : StdMap (StdMap Int) :=
  outfits.foldl
    (fun listing it =>
      StdMap.modify (StdMap.modify (fun n => n + it.2) 0 it.1.Name) [] it.1.Category listing)
    []

/-- Lines 367-387: the loop over the listing, on the three variables it changes
(`outfitLabels`, `outfitValues`, `outfitsHeight`).  An entry is told from
`*listing.begin()` by its position. -/
def outfitLoop (listing : StdMap (StdMap Int))
    (init : List String × List String × Int) : List String × List String × Int :=
  listing.enum.foldl
    (fun acc cit =>
      -- pad by 10 pixels before each category
      let acc : List String × List String × Int :=
        if cit.1 ≠ 0 then (acc.1 ++ [""], acc.2.1 ++ [""], acc.2.2 + 10) else acc
      let acc : List String × List String × Int :=
        (acc.1 ++ [cit.2.1 ++ ":"], acc.2.1 ++ [""], acc.2.2 + 20)
      cit.2.2.foldl
        (fun acc it => (acc.1 ++ [it.1], acc.2.1 ++ [toString it.2], acc.2.2 + 20))
        acc)
    init

/-- Lines 357-405, `ShipInfoDisplay::UpdateOutfits`. -/
def UpdateOutfits (E : Env) (ship : Ship) (depreciation : Depreciation) (day : Int)
    (self : Display) : Display :=
  let outfitLabels : List String := []
  let outfitValues : List String := []
  let outfitsHeight : Int := 20
  let listing := listing ship.Outfits
  let lines := outfitLoop listing (outfitLabels, outfitValues, outfitsHeight)
  let outfitLabels := lines.1
  let outfitValues := lines.2.1
  let outfitsHeight := lines.2.2
  let totalCost := depreciation.Value ship day
  let chassisCost := depreciation.ValueOfModel (E.Ships ship.ModelName) day
  let saleLabels : List String := []
  let saleValues : List String := []
  let saleHeight : Int := 20
  let saleLabels := saleLabels ++ ["This ship will sell for:"]
  let saleValues := saleValues ++ [""]
  let saleHeight := saleHeight + 20
  let saleLabels := saleLabels ++ ["empty hull:"]
  let saleValues := saleValues ++ [E.Number (chassisCost : ℚ)]
  let saleHeight := saleHeight + 20
  let saleLabels := saleLabels ++ ["  + outfits:"]
  let saleValues := saleValues ++ [E.Number ((totalCost - chassisCost : Int) : ℚ)]
  let saleHeight := saleHeight + 5
  { self with
    outfitLabels := outfitLabels
    outfitValues := outfitValues
    outfitsHeight := outfitsHeight
    saleLabels := saleLabels
    saleValues := saleValues
    saleHeight := saleHeight }

/-! ## `Update` -/

/-- Lines 41-48, `ShipInfoDisplay::Update`. -/
def Update (E : Env) (ship : Ship) (depreciation : Depreciation) (day : Int)
    (self : Display) : Option Display := do
  let self : Display := { self with
    descriptionHeight :=
      E.UpdateDescription ship.Description ship.Attributes.Licenses true self.descriptionHeight }
  let self ← UpdateAttributes E ship depreciation day self
  let self := UpdateOutfits E ship depreciation day self
  pure { self with
    maximumHeight := max self.descriptionHeight (max self.attributesHeight self.outfitsHeight) }

/-- The lists and heights that `Update` computes from the ship: the attribute
list, the energy and heat table, the outfit list and the sale list, each with
its height. -/
def Display.computed (d : Display) :
    (List String × List String × Int) × (List String × List String × List String)
      × (List String × List String × Int) × (List String × List String × Int) :=
  ((d.attributeLabels, d.attributeValues, d.attributesHeight),
   (d.tableLabels, d.energyTable, d.heatTable),
   (d.outfitLabels, d.outfitValues, d.outfitsHeight),
   (d.saleLabels, d.saleValues, d.saleHeight))

/-! ## The outfit list, as the specification words it -/

/-- The distinct categories of the installed outfits, in ascending order. -/
def categories (outfits : List (Outfit × Int)) : List String :=
  ((outfits.map (fun it => it.1.Category)).dedup).insertionSort (· ≤ ·)

/-- The distinct names of the installed outfits of the category `c`, in
ascending order. -/
def namesIn (outfits : List (Outfit × Int)) (c : String) : List String :=
  (((outfits.filter (fun it => it.1.Category = c)).map (fun it => it.1.Name)).dedup).insertionSort
    (· ≤ ·)

/-- The sum of the quantities of all installed outfits with category `c` and
name `n`. -/
def quantity (outfits : List (Outfit × Int)) (c n : String) : Int :=
  ((outfits.filter (fun it => it.1.Category = c ∧ it.1.Name = n)).map (fun it => it.2)).sum

/-- The lines of one category: a blank spacer unless the category is the first,
the header, then one line per name with the summed quantity. -/
def categoryBlock (outfits : List (Outfit × Int)) (index : Nat) (c : String) :
    List (String × String) :=
  (if index = 0 then [] else [("", "")])
  ++ [(c ++ ":", "")]
  ++ (namesIn outfits c).map (fun n => (n, toString (quantity outfits c n)))

/-- The outfit list as the specification words it: the concatenation of the
category blocks over the distinct categories in ascending order. -/
def listedOutfits (outfits : List (Outfit × Int)) : List (String × String) :=
  (categories outfits).enum.flatMap (fun ic => categoryBlock outfits ic.1 ic.2)

/-- The distinct (category, name) pairs of the installed outfits. -/
def distinctPairs (outfits : List (Outfit × Int)) : List (String × String) :=
  (outfits.map (fun it => (it.1.Category, it.1.Name))).dedup

/-- The counts `it.second` that line 384 prints, in the order in which the loop
of lines 367-387 goes through the listing. -/
def shownCounts (listing : StdMap (StdMap Int)) : List Int :=
  listing.flatMap (fun cit => cit.2.map (fun it => it.2))

/-- The (category, name, quantity) triples of the installed outfits, in the
order of the outfit map. -/
def triples (outfits : List (Outfit × Int)) : List (String × String × Int) :=
  outfits.map (fun it => (it.1.Category, it.1.Name, it.2))

/-! ## Example data -/

/-- A number format for the examples: an integer as its decimal digits, another
rational as numerator, slash, denominator. -/
def exampleNumber (q : ℚ) : String :=
  if q.den = 1 then toString q.num else toString q.num ++ "/" ++ toString q.den

/-- A weapon with firing energy 5, firing heat 2 and reload 10, which costs 10
units of outfit space and 8 of weapon capacity. -/
def exampleLaser : Outfit :=
  { Name := "Laser", Category := "Weapon", IsWeapon := true,
    Reload := 10, FiringEnergy := 5, FiringHeat := 2,
    Attributes := [("outfit space", -10), ("weapon capacity", -8)] }

/-- A second outfit of the category "Weapon". -/
def exampleBlaster : Outfit :=
  { Name := "Blaster", Category := "Weapon",
    Attributes := [("outfit space", -6), ("weapon capacity", -6)] }

/-- An outfit that grants 15 units of outfit space and costs 10 of cargo space. -/
def exampleExpansion : Outfit :=
  { Name := "Outfits Expansion", Category := "Systems",
    Attributes := [("cargo space", -10), ("outfit space", 15)] }

/-- The attributes of the example hull. -/
def exampleHull : Outfit :=
  { Attributes := [("bunks", 6), ("cargo space", 50), ("drag", 2), ("hull", 500),
      ("outfit space", 100), ("shields", 600), ("weapon capacity", 20)] }

/-- The example hull without any outfit; it costs 1000. -/
def exampleModel : Ship :=
  { ModelName := "Sparrow", Attributes := exampleHull, BaseAttributes := exampleHull,
    Cost := 1000, Mass := 50 }

/-- A ship whose only outfits are two lasers. -/
def exampleGunship : Ship :=
  { exampleModel with Name := "Finch", Outfits := [(exampleLaser, 2)], Cost := 1200 }

/-- A ship with two lasers and one blaster, both of the category "Weapon". -/
def exampleArmed : Ship :=
  { exampleModel with
    Name := "Kestrel", Outfits := [(exampleLaser, 2), (exampleBlaster, 1)], Cost := 1500 }

/-- The armed example ship with its outfit map in the other order and the two
lasers held by two entries of one laser each. -/
def exampleRearmed : Ship :=
  { exampleArmed with
    Outfits := [(exampleBlaster, 1), (exampleLaser, 1), (exampleLaser, 1)] }

/-- A ship with two lasers, three outfit expansions and one blaster. -/
def exampleMixed : Ship :=
  { exampleModel with
    Name := "Osprey"
    Outfits := [(exampleLaser, 2), (exampleExpansion, 3), (exampleBlaster, 1)]
    Cost := 1900 }

/-- The example hull with two lasers and three outfit expansions; it costs 1600. -/
def exampleShip : Ship :=
  { exampleModel with
    Name := "Wren"
    Outfits := [(exampleLaser, 2), (exampleExpansion, 3)]
    Attributes :=
      { Attributes := [("bunks", 6), ("cargo space", 20), ("drag", 2), ("hull", 500),
          ("outfit space", 125), ("shields", 600), ("weapon capacity", 4)] }
    Cost := 1600 }

/-- A hull on sale: it has no name, weighs 100, and has thrust 20, turn 300,
drag 2 and 50 units of cargo space. -/
def exampleFreighter : Ship :=
  { ModelName := "Mule", Cost := 5000, Mass := 100,
    Attributes :=
      { Attributes := [("cargo space", 50), ("drag", 2), ("thrust", 20), ("turn", 300)] }
    BaseAttributes :=
      { Attributes := [("cargo space", 50), ("drag", 2), ("thrust", 20), ("turn", 300)] } }

/-- A ship without cost whose depreciated value is taken to be 1 by
`exampleArrears`. -/
def exampleWreck : Ship := { Name := "Hulk", ModelName := "Hulk", Cost := 0 }

/-- A depreciation model that values every ship at 1. -/
def exampleArrears : Depreciation := { Value := fun _ _ => 1, ValueOfModel := fun _ _ => 1 }

/-- The collaborators of the examples: display names are the keys themselves,
and the only known model is the example hull. -/
def exampleEnv : Env :=
  { Number := exampleNumber
    NumberNonFinite := fun a => if 0 < a then "inf" else if a < 0 then "-inf" else "nan"
    ATTRIBUTES := fun k => k
    Ships := fun _ => exampleModel
    UpdateDescription := fun _ _ _ _ => 100 }

/-- A hull on sale that weighs nothing: thrust 20, turn 300, drag 2 and 50 units
of cargo space, so that its full mass is 50 and its empty mass 0. -/
def exampleWeightless : Ship := { exampleFreighter with Mass := 0 }

/-- A depreciation model for the examples: a ship is worth its full cost on
day 0 and three quarters of it afterwards; a bare hull looked up as a model is
worth 300 less than its cost on day 0 and half its cost afterwards. -/
def exampleDepreciation : Depreciation :=
  { Value := fun ship day => if day = 0 then ship.Cost else (3 * ship.Cost).tdiv 4
    ValueOfModel := fun model day => if day = 0 then model.Cost - 300 else model.Cost.tdiv 2 }

end ShipInfoDisplay

/-! ## Lemmas on `StdMap` -/

namespace ShipInfoDisplay
namespace StdMap
variable {V : Type}

@[simp] theorem find_nil (k : String) : find ([] : StdMap V) k = none := rfl

theorem find_cons (k' : String) (v : V) (m : StdMap V) (k : String) :
    find ((k', v) :: m) k = if k = k' then some v else find m k := by
  unfold find
  by_cases h : k = k'
  · subst h; simp [List.lookup]
  · have : (k == k') = false := by simpa using h
    simp [List.lookup, this, h]

@[simp] theorem keys_nil : keys ([] : StdMap V) = [] := rfl

@[simp] theorem keys_cons (e : String × V) (m : StdMap V) : keys (e :: m) = e.1 :: keys m := rfl

theorem find_eq_none_of_not_mem {m : StdMap V} {k : String} (h : k ∉ keys m) :
    find m k = none := by
  induction m with
  | nil => rfl
  | cons e m ih =>
    obtain ⟨k', v⟩ := e
    simp only [keys_cons, List.mem_cons, not_or] at h
    rw [find_cons, if_neg h.1, ih h.2]

theorem find_isSome_of_mem {m : StdMap V} {k : String} (h : k ∈ keys m) :
    (find m k).isSome = true := by
  induction m with
  | nil => simp at h
  | cons e m ih =>
    obtain ⟨k', v⟩ := e
    simp only [keys_cons, List.mem_cons] at h
    rw [find_cons]
    by_cases hk : k = k'
    · simp [hk]
    · rw [if_neg hk]; exact ih (h.resolve_left hk)

theorem mem_keys_iff_find_isSome {m : StdMap V} {k : String} :
    k ∈ keys m ↔ (find m k).isSome = true := by
  constructor
  · exact find_isSome_of_mem
  · intro h
    by_contra hk
    rw [find_eq_none_of_not_mem hk] at h
    simp at h

theorem WF.nodup {m : StdMap V} (h : WF m) : (keys m).Nodup :=
  List.Pairwise.imp (fun hab => ne_of_lt hab) h

theorem wf_nil : WF ([] : StdMap V) := List.Pairwise.nil

theorem wf_cons {e : String × V} {m : StdMap V} :
    WF (e :: m) ↔ (∀ x ∈ keys m, e.1 < x) ∧ WF m := by
  simp [WF, List.pairwise_cons]

theorem mem_keys_modify (f : V → V) (dflt : V) (k : String) (m : StdMap V) (x : String) :
    x ∈ keys (modify f dflt k m) ↔ x = k ∨ x ∈ keys m := by
  induction m with
  | nil => simp [modify]
  | cons e m ih =>
    obtain ⟨k', v⟩ := e
    unfold modify
    by_cases h1 : k < k'
    · simp [h1]
    · by_cases h2 : k = k'
      · subst h2; simp [h1]
      · simp only [if_neg h1, if_neg h2, keys_cons, List.mem_cons, ih]
        tauto

theorem wf_modify (f : V → V) (dflt : V) (k : String) {m : StdMap V} (h : WF m) :
    WF (modify f dflt k m) := by
  induction m with
  | nil => simp [modify, WF, keys]
  | cons e m ih =>
    obtain ⟨k', v⟩ := e
    rw [wf_cons] at h
    unfold modify
    by_cases h1 : k < k'
    · rw [if_pos h1, wf_cons]
      refine ⟨?_, wf_cons.mpr h⟩
      intro x hx
      simp only [keys_cons, List.mem_cons] at hx
      rcases hx with rfl | hx
      · exact h1
      · exact lt_trans h1 (h.1 x hx)
    · by_cases h2 : k = k'
      · rw [if_neg h1, if_pos h2, wf_cons]
        exact ⟨h.1, h.2⟩
      · rw [if_neg h1, if_neg h2, wf_cons]
        refine ⟨?_, ih h.2⟩
        intro x hx
        rcases (mem_keys_modify f dflt k m x).mp hx with rfl | hx
        · exact lt_of_le_of_ne (not_lt.mp h1) (Ne.symm h2)
        · exact h.1 x hx

theorem find_modify (f : V → V) (dflt : V) (k : String) {m : StdMap V} (h : WF m)
    (x : String) :
    find (modify f dflt k m) x = if x = k then some (f (get dflt m k)) else find m x := by
  induction m with
  | nil =>
    simp [modify, find_cons, get]
  | cons e m ih =>
    obtain ⟨k', v⟩ := e
    rw [wf_cons] at h
    unfold modify
    by_cases h1 : k < k'
    · have hk : k ∉ keys ((k', v) :: m) := by
        simp only [keys_cons, List.mem_cons, not_or]
        exact ⟨ne_of_lt h1, fun hm => lt_asymm h1 (h.1 k hm)⟩
      rw [if_pos h1, find_cons, get, find_eq_none_of_not_mem hk]
      simp
    · by_cases h2 : k = k'
      · subst h2
        rw [if_neg h1, if_pos rfl, find_cons, get, find_cons, if_pos rfl]
        by_cases hx : x = k
        · simp [hx]
        · simp [hx, find_cons]
      · rw [if_neg h1, if_neg h2, find_cons, ih h.2, get, get, find_cons, if_neg h2]
        by_cases hx : x = k
        · subst hx; simp [h2]
        · simp [hx, find_cons]

theorem get_modify (f : V → V) (dflt : V) (k : String) {m : StdMap V} (h : WF m)
    (x : String) :
    get dflt (modify f dflt k m) x = if x = k then f (get dflt m k) else get dflt m x := by
  unfold get
  rw [find_modify f dflt k h]
  by_cases hx : x = k <;> simp [hx, get]

/-- Two well-formed maps with the same lookups are the same sequence of entries. -/
theorem ext {m₁ m₂ : StdMap V} (h₁ : WF m₁) (h₂ : WF m₂)
    (h : ∀ k, find m₁ k = find m₂ k) : m₁ = m₂ := by
  induction m₁ generalizing m₂ with
  | nil =>
    cases m₂ with
    | nil => rfl
    | cons e m₂ =>
      obtain ⟨k₂, v₂⟩ := e
      have := h k₂
      simp [find_cons] at this
  | cons e₁ m₁ ih =>
    cases m₂ with
    | nil =>
      obtain ⟨k₁, v₁⟩ := e₁
      have := h k₁
      simp [find_cons] at this
    | cons e₂ m₂ =>
      obtain ⟨k₁, v₁⟩ := e₁
      obtain ⟨k₂, v₂⟩ := e₂
      rw [wf_cons] at h₁ h₂
      have hk : k₁ = k₂ := by
        by_contra hne
        rcases lt_or_gt_of_ne hne with hlt | hgt
        · have h1 := h k₁
          rw [find_cons, if_pos rfl, find_cons, if_neg hne] at h1
          have hmem : k₁ ∈ keys m₂ := mem_keys_iff_find_isSome.mpr (by rw [← h1]; rfl)
          exact lt_asymm hlt (h₂.1 k₁ hmem)
        · have h1 := h k₂
          rw [find_cons, if_neg (Ne.symm hne), find_cons, if_pos rfl] at h1
          have hmem : k₂ ∈ keys m₁ := mem_keys_iff_find_isSome.mpr (by rw [h1]; rfl)
          exact lt_asymm hgt (h₁.1 k₂ hmem)
      subst hk
      have hv : v₁ = v₂ := by
        have h1 := h k₁
        simpa [find_cons] using h1
      subst hv
      congr 1
      apply ih h₁.2 h₂.2
      intro k
      have h1 := h k
      rw [find_cons, find_cons] at h1
      by_cases hkk : k = k₁
      · subst hkk
        rw [find_eq_none_of_not_mem (fun hm => lt_irrefl _ (h₁.1 k hm)),
          find_eq_none_of_not_mem (fun hm => lt_irrefl _ (h₂.1 k hm))]
      · simpa [hkk] using h1

end StdMap

/-! ## The capacity map -/

/-- The copy loop `for(a : src) m[a.first] = a.second` keeps the map well-formed. -/
theorem wf_copy_from (src : StdMap ℚ) {m : StdMap ℚ} (h : StdMap.WF m) :
    StdMap.WF (src.foldl (fun m a => StdMap.modify (fun _ => a.2) 0 a.1 m) m) := by
  induction src generalizing m with
  | nil => exact h
  | cons a src ih => exact ih (StdMap.wf_modify _ _ _ h)

/-- What the copy loop leaves under each key, when the keys of the source are unique. -/
theorem find_copy_from {src : StdMap ℚ} (hsrc : (StdMap.keys src).Nodup) {m : StdMap ℚ}
    (h : StdMap.WF m) (k : String) :
    StdMap.find (src.foldl (fun m a => StdMap.modify (fun _ => a.2) 0 a.1 m) m) k
      = (StdMap.find src k).orElse (fun _ => StdMap.find m k) := by
  induction src generalizing m with
  | nil => simp
  | cons a src ih =>
    obtain ⟨k', v⟩ := a
    simp only [StdMap.keys_cons, List.nodup_cons] at hsrc
    rw [List.foldl_cons, ih hsrc.2 (StdMap.wf_modify _ _ _ h), StdMap.find_modify _ _ _ h,
      StdMap.find_cons]
    by_cases hk : k = k'
    · subst hk
      simp [StdMap.find_eq_none_of_not_mem hsrc.1]
    · simp [hk]

/-- The inner loop of lines 141-147 for one outfit keeps the map well-formed. -/
theorem wf_inner (g : String → ℚ) (q : ℚ) (as : StdMap ℚ) {m : StdMap ℚ} (h : StdMap.WF m) :
    StdMap.WF (as.foldl
      (fun m a => if g a.1 > 0 then StdMap.modify (fun x => x + q * g a.1) 0 a.1 m else m) m) := by
  induction as generalizing m with
  | nil => exact h
  | cons a as ih =>
    rw [List.foldl_cons]
    by_cases hg : g a.1 > 0
    · rw [if_pos hg]; exact ih (StdMap.wf_modify _ _ _ h)
    · rw [if_neg hg]; exact ih h

/-- What the inner loop of lines 141-147 adds under a key. -/
theorem get_inner (g : String → ℚ) (q : ℚ) {as : StdMap ℚ} (has : (StdMap.keys as).Nodup)
    {m : StdMap ℚ} (h : StdMap.WF m) (k : String) :
    StdMap.get 0 (as.foldl
      (fun m a => if g a.1 > 0 then StdMap.modify (fun x => x + q * g a.1) 0 a.1 m else m) m) k
      = StdMap.get 0 m k + (if k ∈ StdMap.keys as ∧ 0 < g k then q * g k else 0) := by
  induction as generalizing m with
  | nil => simp
  | cons a as ih =>
    obtain ⟨k', v⟩ := a
    simp only [StdMap.keys_cons, List.nodup_cons] at has
    rw [List.foldl_cons]
    by_cases hg : g k' > 0
    · simp only [if_pos hg]
      rw [ih has.2 (StdMap.wf_modify _ _ _ h), StdMap.get_modify _ _ _ h]
      by_cases hk : k = k'
      · subst hk
        have hg' : 0 < g k := hg
        simp [has.1, hg']
      · simp [hk]
    · simp only [if_neg hg]
      rw [ih has.2 h]
      by_cases hk : k = k'
      · subst hk
        have hg' : ¬ 0 < g k := hg
        simp [has.1, hg']
      · simp [hk]

/-- An outfit reports zero for a key that its attribute map does not hold. -/
theorem Outfit.Get_of_not_mem {o : Outfit} {k : String} (h : k ∉ StdMap.keys o.Attributes) :
    o.Get k = 0 := by
  simp [Outfit.Get, StdMap.get, StdMap.find_eq_none_of_not_mem h]

/-- The copy of any map is well-formed. -/
theorem wf_copyAttributes (src : StdMap ℚ) : StdMap.WF (copyAttributes src) :=
  wf_copy_from src StdMap.wf_nil

/-- The copy of a map with unique keys finds what the map finds. -/
theorem find_copyAttributes {src : StdMap ℚ} (hsrc : (StdMap.keys src).Nodup) (k : String) :
    StdMap.find (copyAttributes src) k = StdMap.find src k := by
  unfold copyAttributes
  rw [find_copy_from hsrc StdMap.wf_nil]
  cases StdMap.find src k <;> simp

/-- The copy of a well-formed map is the map. -/
theorem copyAttributes_eq_self {src : StdMap ℚ} (hsrc : StdMap.WF src) :
    copyAttributes src = src :=
  StdMap.ext (wf_copyAttributes src) hsrc (find_copyAttributes hsrc.nodup)

/-- What the outfit loop adds under a key. -/
theorem get_addOutfits {outfits : List (Outfit × Int)}
    (houtfits : ∀ o ∈ outfits, (StdMap.keys o.1.Attributes).Nodup)
    {m : StdMap ℚ} (h : StdMap.WF m) (k : String) :
    StdMap.get 0 (addOutfits outfits m) k
      = StdMap.get 0 m k
        + ((outfits.filter (fun o => 0 < o.1.Get k)).map (fun o => (o.2 : ℚ) * o.1.Get k)).sum := by
  induction outfits generalizing m with
  | nil => simp [addOutfits]
  | cons o outfits ih =>
    have ho := houtfits o (List.mem_cons_self _ _)
    have hrest : ∀ o' ∈ outfits, (StdMap.keys o'.1.Attributes).Nodup :=
      fun o' ho' => houtfits o' (List.mem_cons_of_mem _ ho')
    have hstep := get_inner o.1.Get (o.2 : ℚ) ho h k
    have hwf := wf_inner o.1.Get (o.2 : ℚ) o.1.Attributes h
    unfold addOutfits at ih ⊢
    rw [List.foldl_cons, ih hrest hwf, hstep]
    by_cases hpos : 0 < o.1.Get k
    · have hmem : k ∈ StdMap.keys o.1.Attributes := by
        by_contra hn
        rw [Outfit.Get_of_not_mem hn] at hpos
        exact lt_irrefl _ hpos
      simp [List.filter_cons, hpos, hmem, add_assoc]
    · simp [List.filter_cons, hpos]

/-- The capacity under a key: the base value plus the positive contributions. -/
theorem get_attributeMapBase (ship : Ship)
    (hbase : (StdMap.keys ship.BaseAttributes.Attributes).Nodup)
    (houtfits : ∀ o ∈ ship.Outfits, (StdMap.keys o.1.Attributes).Nodup) (k : String) :
    StdMap.get 0 (attributeMapBase ship) k
      = ship.BaseAttributes.Get k
        + ((ship.Outfits.filter (fun o => 0 < o.1.Get k)).map
            (fun o => (o.2 : ℚ) * o.1.Get k)).sum := by
  unfold attributeMapBase
  rw [get_addOutfits houtfits (wf_copyAttributes _)]
  congr 1
  unfold StdMap.get Outfit.Get StdMap.get
  rw [find_copyAttributes hbase]


/-! ## Claims on the capacity map -/

/-- C1: for every key, the capacity read from `attributeMapBase` after the outfit
loop is the base value plus the sum of `quantity * value` over the installed
outfits whose value for the key is strictly positive; and an installed outfit
whose value for the key is negative contributes nothing, whatever its quantity:
the capacity is the same as with that outfit taken out. -/
theorem capacity_aggregation (ship : Ship)
    (hbase : StdMap.WF ship.BaseAttributes.Attributes)
    (houtfits : ∀ o ∈ ship.Outfits, StdMap.WF o.1.Attributes) (k : String) :
    StdMap.get 0 (attributeMapBase ship) k
        = ship.BaseAttributes.Get k
          + ((ship.Outfits.filter (fun o => 0 < o.1.Get k)).map
              (fun o => (o.2 : ℚ) * o.1.Get k)).sum
      ∧ ∀ (pre post : List (Outfit × Int)) (o : Outfit) (q : Int),
          ship.Outfits = pre ++ (o, q) :: post → o.Get k < 0 →
          StdMap.get 0 (attributeMapBase ship) k
            = StdMap.get 0 (attributeMapBase { ship with Outfits := pre ++ post }) k := by
  have hnd : ∀ o ∈ ship.Outfits, (StdMap.keys o.1.Attributes).Nodup :=
    fun o ho => (houtfits o ho).nodup
  refine ⟨get_attributeMapBase ship hbase.nodup hnd k, ?_⟩
  intro pre post o q hout hneg
  have hnd' : ∀ o' ∈ ({ ship with Outfits := pre ++ post } : Ship).Outfits,
      (StdMap.keys o'.1.Attributes).Nodup := by
    intro o' ho'
    apply hnd
    rw [hout]
    simp only [List.mem_append, List.mem_cons] at ho' ⊢
    tauto
  rw [get_attributeMapBase ship hbase.nodup hnd k,
    get_attributeMapBase { ship with Outfits := pre ++ post } hbase.nodup hnd' k, hout]
  have hnot : ¬ 0 < o.Get k := not_lt.mpr (le_of_lt hneg)
  simp [List.filter_append, List.filter_cons, hnot]

/-- C1, witness: the example ship (two lasers that each cost 10 units of outfit
space, three expansions that each grant 15) has outfit-space capacity
100 + 3 * 15 = 145. -/
theorem capacity_aggregation_witness :
    StdMap.WF exampleShip.BaseAttributes.Attributes
      ∧ (∀ o ∈ exampleShip.Outfits, StdMap.WF o.1.Attributes)
      ∧ StdMap.get 0 (attributeMapBase exampleShip) "outfit space" = 145 :=
  ⟨by decide!, by decide!,
    ((capacity_aggregation exampleShip (by decide!) (by decide!) "outfit space").1).trans
      (by decide!)⟩

/-- C2: for a ship without installed outfits the capacity map is the base
attribute map itself, entry for entry. -/
theorem capacity_no_outfits (ship : Ship)
    (hbase : StdMap.WF ship.BaseAttributes.Attributes) (hnone : ship.Outfits = []) :
    attributeMapBase ship = ship.BaseAttributes.Attributes := by
  unfold attributeMapBase
  rw [hnone]
  exact copyAttributes_eq_self hbase

/-- C2, witness: the example hull without outfits. -/
theorem capacity_no_outfits_witness :
    StdMap.WF exampleModel.BaseAttributes.Attributes ∧ exampleModel.Outfits = []
      ∧ attributeMapBase exampleModel = exampleModel.BaseAttributes.Attributes :=
  ⟨by decide!, rfl, capacity_no_outfits exampleModel (by decide!) rfl⟩


/-! ## The attribute list -/

/-- The slot loop appends one line per key with positive capacity, in key order. -/
theorem slotLoop_eq (E : Env) (base used : StdMap ℚ) (keys : List String)
    (init : List String × List String × Int) :
    slotLoop E base used keys init
      = (init.1 ++ (keys.filter (fun k => 0 < StdMap.get 0 base k)).map
            (fun k => E.ATTRIBUTES k ++ ":"),
         init.2.1 ++ (keys.filter (fun k => 0 < StdMap.get 0 base k)).map
            (fun k => E.Number (StdMap.get 0 used k) ++ " / " ++ E.Number (StdMap.get 0 base k)),
         init.2.2 + 20 * ((keys.filter (fun k => 0 < StdMap.get 0 base k)).length : Int)) := by
  unfold slotLoop
  induction keys generalizing init with
  | nil => simp
  | cons k keys ih =>
    rw [List.foldl_cons, ih]
    by_cases hk : 0 < StdMap.get 0 base k
    · simp [List.filter_cons, hk]
      ring
    · simp [List.filter_cons, hk]

/-- A branch on what is appended is a branch on the appended element. -/
theorem ite_append_singleton {α : Type} (c : Prop) [Decidable c] (xs : List α) (a b : α) :
    (if c then xs ++ [a] else xs ++ [b]) = xs ++ [if c then a else b] := by
  split <;> rfl

/-- A conditional append is the append of a conditional list. -/
theorem ite_append_self {α : Type} (c : Prop) [Decidable c] (xs ys : List α) :
    (if c then xs ++ ys else xs) = xs ++ (if c then ys else []) := by
  split <;> simp

/-- The integer division of the cost line has a result exactly when the full
cost is not zero. -/
theorem div64_eq_some {a b : Int} (h : b ≠ 0) : div64 a b = some (a.tdiv b) := by
  simp [div64, h]

/-- Full description of `UpdateAttributes`: it has a result whenever the cost
percentage is defined, and then every field it writes is as listed and every
other field is untouched. -/
theorem UpdateAttributes_spec (E : Env) (ship : Ship) (depreciation : Depreciation) (day : Int)
    (self : Display)
    (hdef : depreciation.Value ship day = ship.Cost ∨ ship.Cost ≠ 0) :
    ∃ d, UpdateAttributes E ship depreciation day self = some d
      ∧ d.attributeLabels =
          (headLines E ship depreciation day).map Prod.fst
          ++ (shownSlots ship).map (fun k => (slotLine E ship k).1)
          ++ (bayLines ship).map Prod.fst
      ∧ d.attributeValues =
          (headLines E ship depreciation day).map Prod.snd
          ++ (shownSlots ship).map (fun k => (slotLine E ship k).2)
          ++ (bayLines ship).map Prod.snd
      ∧ d.attributesHeight =
          20 + 20 + 10 + 20 + 20 + 20 + 20 + 20 + 20 + 10 + 20 + 20 + 20 + 20 + 10
          + 20 * ((shownSlots ship).length : Int)
          + 20 * ((bayLines ship).length : Int)
          + 30 + 20 + 20 + 20 + 20 + 30
      ∧ d.tableLabels = ["idle:", "moving:", "firing:", regenLabel ship, "max:"]
      ∧ d.energyTable =
          [E.Number (60 * (ship.Attributes.Get "energy generation"
              + ship.Attributes.Get "solar collection"
              - ship.Attributes.Get "energy consumption"
              - ship.Attributes.Get "cooling energy")),
           E.Number (-60 * (max (ship.Attributes.Get "thrusting energy")
                (ship.Attributes.Get "reverse thrusting energy")
              + ship.Attributes.Get "turning energy"
              + ship.Attributes.Get "afterburner energy")),
           E.Number (-60 * (firingLoop ship.Outfits).1),
           E.Number (-60 * (ship.Attributes.Get "shield energy"
              + ship.Attributes.Get "hull energy")),
           E.Number (ship.Attributes.Get "energy capacity")]
      ∧ d.heatTable =
          [E.Number (60 * (ship.Attributes.Get "heat generation"
              - ship.CoolingEfficiency
                * (ship.Attributes.Get "cooling" + ship.Attributes.Get "active cooling"))),
           E.Number (60 * (max (ship.Attributes.Get "thrusting heat")
                (ship.Attributes.Get "reverse thrusting heat")
              + ship.Attributes.Get "turning heat"
              + ship.Attributes.Get "afterburner heat")),
           E.Number (60 * (firingLoop ship.Outfits).2),
           E.Number (60 * (ship.Attributes.Get "shield heat" + ship.Attributes.Get "hull heat")),
           E.Number (60 * ship.HeatDissipation * ship.MaximumHeat)]
      ∧ d.descriptionHeight = self.descriptionHeight
      ∧ d.maximumHeight = self.maximumHeight
      ∧ d.outfitLabels = self.outfitLabels
      ∧ d.outfitValues = self.outfitValues
      ∧ d.outfitsHeight = self.outfitsHeight
      ∧ d.saleLabels = self.saleLabels
      ∧ d.saleValues = self.saleValues
      ∧ d.saleHeight = self.saleHeight := by
  have hbayL : (bayLines ship).map Prod.fst
      = (if ship.BaysFree false ≠ 0 then ["drone bays:"] else [])
        ++ (if ship.BaysFree true ≠ 0 then ["fighter bays:"] else []) := by
    unfold bayLines; split_ifs <;> rfl
  have hbayV : (bayLines ship).map Prod.snd
      = (if ship.BaysFree false ≠ 0 then [toString (ship.BaysFree false)] else [])
        ++ (if ship.BaysFree true ≠ 0 then [toString (ship.BaysFree true)] else []) := by
    unfold bayLines; split_ifs <;> rfl
  have hbayN : 20 * ((bayLines ship).length : Int)
      = (if ship.BaysFree false ≠ 0 then 20 else 0)
        + (if ship.BaysFree true ≠ 0 then 20 else 0) := by
    unfold bayLines; split_ifs <;> rfl
  rw [hbayL, hbayV, hbayN]
  unfold UpdateAttributes headLines regenLabel costLabel isGenericMovement fullMass forwardThrust
    shownSlots slotLine isGeneric
  simp only [slotLoop_eq, ite_append_singleton, ite_append_self]
  by_cases h' : depreciation.Value ship day = ship.Cost
  · simp only [h', if_true, pure, bind, Option.bind]
    refine ⟨_, rfl, ?_, ?_, ?_, ?_, ?_, ?_, rfl, rfl, rfl, rfl, rfl, rfl, rfl, rfl⟩
    · simp
    · cases hg : (ship.Name.isEmpty || ship.GetPlanet) <;> simp
    · simp only []
      split_ifs <;> ring
    · simp
    · simp
    · simp
  · have h : ship.Cost ≠ 0 := hdef.resolve_left h'
    simp only [h', if_false, div64, h, pure, bind, Option.bind]
    refine ⟨_, rfl, ?_, ?_, ?_, ?_, ?_, ?_, rfl, rfl, rfl, rfl, rfl, rfl, rfl, rfl⟩
    · simp
    · cases hg : (ship.Name.isEmpty || ship.GetPlanet) <;> simp
    · simp only []
      split_ifs <;> ring
    · simp
    · simp
    · simp

/-- Zipping the two projections of a list of pairs gives the list back. -/
theorem zip_map_fst_snd {α β : Type} (l : List (α × β)) :
    (l.map Prod.fst).zip (l.map Prod.snd) = l := by
  induction l with
  | nil => rfl
  | cons a l ih => simp [ih]

/-- The attribute list as pairs: the head lines, the slot lines of the keys with
positive capacity, the bay lines. -/
theorem attributeLines_spec (E : Env) (ship : Ship) (depreciation : Depreciation) (day : Int)
    (self : Display)
    (hdef : depreciation.Value ship day = ship.Cost ∨ ship.Cost ≠ 0) :
    ∃ d, UpdateAttributes E ship depreciation day self = some d
      ∧ d.attributeLines =
          headLines E ship depreciation day
          ++ (shownSlots ship).map (slotLine E ship)
          ++ bayLines ship := by
  obtain ⟨d, hd, hl, hv, -⟩ := UpdateAttributes_spec E ship depreciation day self hdef
  refine ⟨d, hd, ?_⟩
  unfold Display.attributeLines
  rw [hl, hv, List.zip_append (by simp), List.zip_append (by simp), zip_map_fst_snd,
    zip_map_fst_snd, List.zip_map']

/-- A string with a nonempty right part is not empty. -/
theorem append_ne_empty (s t : String) (h : t ≠ "") : s ++ t ≠ "" := by
  intro hst
  have hlen := congrArg String.length hst
  rw [String.length_append] at hlen
  have ht : t.length ≠ 0 := by
    intro h0
    apply h
    exact String.ext (List.length_eq_zero.mp h0)
  have : ("" : String).length = 0 := rfl
  omega

/-- The label of a slot line is not empty. -/
theorem slotLine_label_ne_empty (E : Env) (ship : Ship) (k : String) :
    (slotLine E ship k).1 ≠ "" :=
  append_ne_empty _ _ (by decide)

/-- The label of the cost line is not empty. -/
theorem costLabel_ne_empty (ship : Ship) (depreciation : Depreciation) (day : Int) :
    costLabel ship depreciation day ≠ "" := by
  unfold costLabel
  split
  · decide
  · exact append_ne_empty _ _ (by decide)


/-- No head line other than the three spacers is a spacer. -/
theorem headLines_counts (E : Env) (ship : Ship) (depreciation : Depreciation) (day : Int) :
    spacerCount (headLines E ship depreciation day) = 3
      ∧ lineCount (headLines E ship depreciation day) = 11 := by
  have hc : (costLabel ship depreciation day == "") = false := by
    simpa using costLabel_ne_empty ship depreciation day
  unfold spacerCount lineCount headLines
  cases hg : isGeneric ship <;> cases hm : isGenericMovement ship <;>
    simp [List.filter_cons, isSpacer, hc]

/-- No slot line is a spacer. -/
theorem slotLines_counts (E : Env) (ship : Ship) (keys : List String) :
    spacerCount (keys.map (slotLine E ship)) = 0
      ∧ lineCount (keys.map (slotLine E ship)) = keys.length := by
  have hne : ∀ k, ((slotLine E ship k).1 == "") = false := by
    intro k; simpa using slotLine_label_ne_empty E ship k
  unfold spacerCount lineCount
  induction keys with
  | nil => simp
  | cons k keys ih =>
    simp only [List.map_cons, List.filter_cons, isSpacer, hne k, Bool.false_and, Bool.not_false,
      if_true, List.length_cons]
    simp only [isSpacer] at ih
    constructor
    · simpa using ih.1
    · have := ih.2
      push_cast at this ⊢
      omega

/-- No bay line is a spacer. -/
theorem bayLines_counts (ship : Ship) :
    spacerCount (bayLines ship) = 0 ∧ lineCount (bayLines ship) = (bayLines ship).length := by
  unfold spacerCount lineCount bayLines
  split_ifs <;> simp [List.filter_cons, isSpacer]

/-- Spacers are counted list by list. -/
theorem spacerCount_append (l₁ l₂ : List (String × String)) :
    spacerCount (l₁ ++ l₂) = spacerCount l₁ + spacerCount l₂ := by
  simp [spacerCount, List.filter_append]

/-- Non-spacer lines are counted list by list. -/
theorem lineCount_append (l₁ l₂ : List (String × String)) :
    lineCount (l₁ ++ l₂) = lineCount l₁ + lineCount l₂ := by
  simp [lineCount, List.filter_append]

/-- C4, as the code has it: the attribute height is the top margin 20, plus 20
for every non-spacer line and 10 for every spacer of the attribute list, plus
the 30 reserved for a spacer and the table header, plus what the five rows of
the energy and heat table add: 20 for each of the first four and 30 for the last
one, which is padded by 10 pixels. -/
theorem attributesHeight_bookkeeping (E : Env) (ship : Ship) (depreciation : Depreciation)
    (day : Int) (self : Display)
    (hdef : depreciation.Value ship day = ship.Cost ∨ ship.Cost ≠ 0) :
    ∃ d, UpdateAttributes E ship depreciation day self = some d
      ∧ d.attributesHeight
          = 20 + 20 * lineCount d.attributeLines + 10 * spacerCount d.attributeLines + 30
            + (20 * 4 + 30)
      ∧ d.tableLabels.length = 5 := by
  obtain ⟨d, hd, -, -, hh, ht, -⟩ := UpdateAttributes_spec E ship depreciation day self hdef
  obtain ⟨d', hd', hlines⟩ := attributeLines_spec E ship depreciation day self hdef
  have hdd : d' = d := by rw [hd] at hd'; exact (Option.some.inj hd').symm
  subst hdd
  refine ⟨d', hd, ?_, by rw [ht]; rfl⟩
  rw [hh, hlines, lineCount_append, lineCount_append, spacerCount_append, spacerCount_append,
    (headLines_counts E ship depreciation day).1, (headLines_counts E ship depreciation day).2,
    (slotLines_counts E ship (shownSlots ship)).1, (slotLines_counts E ship (shownSlots ship)).2,
    (bayLines_counts ship).1, (bayLines_counts ship).2]
  ring

/-- C4, witness: the example ship on day 0. -/
theorem attributesHeight_bookkeeping_witness :
    (exampleDepreciation.Value exampleShip 0 = exampleShip.Cost ∨ exampleShip.Cost ≠ 0)
      ∧ ∃ d, UpdateAttributes exampleEnv exampleShip exampleDepreciation 0 {} = some d
          ∧ d.attributesHeight
              = 20 + 20 * lineCount d.attributeLines + 10 * spacerCount d.attributeLines + 30
                + (20 * 4 + 30)
          ∧ d.tableLabels.length = 5 :=
  ⟨by decide!,
    attributesHeight_bookkeeping exampleEnv exampleShip exampleDepreciation 0 {} (by decide!)⟩

/-- C4, as stated, fails: for the example ship the attribute height is 450, while
20 + 20 per non-spacer line + 10 per spacer + 30 is 340 over the sixteen lines
of the attribute list, and 440 when the five table rows are counted as lines. -/
theorem attributesHeight_counterexample :
    (UpdateAttributes exampleEnv exampleShip exampleDepreciation 0 {}).map
        (fun d => (d.attributesHeight,
          20 + 20 * lineCount d.attributeLines + 10 * spacerCount d.attributeLines + 30,
          20 + 20 * (lineCount d.attributeLines + d.tableLabels.length)
            + 10 * spacerCount d.attributeLines + 30))
      = some (450, 340, 440) := by
  decide!


/-! ## The energy and heat table -/

/-- The firing loop computes the two sums over the weapons with nonzero reload. -/
theorem firingLoop_from (outfits : List (Outfit × Int)) (init : ℚ × ℚ) :
    outfits.foldl
        (fun (acc : ℚ × ℚ) it =>
          if it.1.IsWeapon && it.1.Reload ≠ 0 then
            (acc.1 + (it.2 : ℚ) * it.1.FiringEnergy / it.1.Reload,
             acc.2 + (it.2 : ℚ) * it.1.FiringHeat / it.1.Reload)
          else acc)
        init
      = (init.1 + ((outfits.filter (fun it => it.1.IsWeapon && decide (it.1.Reload ≠ 0))).map
            (fun it => (it.2 : ℚ) * it.1.FiringEnergy / it.1.Reload)).sum,
         init.2 + ((outfits.filter (fun it => it.1.IsWeapon && decide (it.1.Reload ≠ 0))).map
            (fun it => (it.2 : ℚ) * it.1.FiringHeat / it.1.Reload)).sum) := by
  induction outfits generalizing init with
  | nil => simp
  | cons it outfits ih =>
    rw [List.foldl_cons, ih]
    by_cases h : (it.1.IsWeapon && decide (it.1.Reload ≠ 0)) = true
    · simp only [h, if_true, List.filter_cons, List.map_cons, List.sum_cons]
      simp [add_assoc]
    · simp only [h, List.filter_cons, Bool.false_eq_true, if_false]

/-- The firing loop, started at zero. -/
theorem firingLoop_eq (outfits : List (Outfit × Int)) :
    firingLoop outfits
      = (((outfits.filter (fun it => it.1.IsWeapon && decide (it.1.Reload ≠ 0))).map
            (fun it => (it.2 : ℚ) * it.1.FiringEnergy / it.1.Reload)).sum,
         ((outfits.filter (fun it => it.1.IsWeapon && decide (it.1.Reload ≠ 0))).map
            (fun it => (it.2 : ℚ) * it.1.FiringHeat / it.1.Reload)).sum) := by
  unfold firingLoop
  rw [firingLoop_from]
  simp

/-- C6: the third row of the table is labelled "firing:"; its energy value is
`-60 * S_e` and its heat value `60 * S_h`, where `S_e` and `S_h` sum
`quantity * firingEnergy / reload` and `quantity * firingHeat / reload` over the
installed outfits that are weapons with nonzero reload, the other outfits
contributing nothing.  For two copies of a weapon with firing energy 5, firing
heat 2 and reload 10 the values are -60 and 24. -/
theorem firing_row (E : Env) (ship : Ship) (depreciation : Depreciation) (day : Int)
    (self : Display)
    (hdef : depreciation.Value ship day = ship.Cost ∨ ship.Cost ≠ 0) :
    ∃ d, UpdateAttributes E ship depreciation day self = some d
      ∧ d.tableLabels[2]? = some "firing:"
      ∧ d.energyTable[2]? = some (E.Number (-60 *
          ((ship.Outfits.filter (fun it => it.1.IsWeapon && decide (it.1.Reload ≠ 0))).map
            (fun it => (it.2 : ℚ) * it.1.FiringEnergy / it.1.Reload)).sum))
      ∧ d.heatTable[2]? = some (E.Number (60 *
          ((ship.Outfits.filter (fun it => it.1.IsWeapon && decide (it.1.Reload ≠ 0))).map
            (fun it => (it.2 : ℚ) * it.1.FiringHeat / it.1.Reload)).sum))
      ∧ (∀ w : Outfit, ship.Outfits = [(w, 2)] → w.IsWeapon = true → w.FiringEnergy = 5 →
          w.FiringHeat = 2 → w.Reload = 10 →
          d.energyTable[2]? = some (E.Number (-60)) ∧ d.heatTable[2]? = some (E.Number 24)) := by
  obtain ⟨d, hd, -, -, -, ht, he, hh, -⟩ :=
    UpdateAttributes_spec E ship depreciation day self hdef
  rw [firingLoop_eq] at he hh
  refine ⟨d, hd, by rw [ht]; rfl, by rw [he]; rfl, by rw [hh]; rfl, ?_⟩
  intro w hw hweapon henergy hheat hreload
  rw [he, hh, hw]
  simp [List.filter_cons, hweapon, hreload, henergy, hheat]
  constructor
  · congr 1; norm_num
  · congr 1; norm_num

/-- C6, witness: the ship whose outfits are two lasers (firing energy 5, firing
heat 2, reload 10) shows -60 and 24 in the firing row. -/
theorem firing_row_witness :
    (exampleDepreciation.Value exampleGunship 0 = exampleGunship.Cost
        ∨ exampleGunship.Cost ≠ 0)
      ∧ ∃ d, UpdateAttributes exampleEnv exampleGunship exampleDepreciation 0 {} = some d
          ∧ d.energyTable[2]? = some "-60" ∧ d.heatTable[2]? = some "24" := by
  have h1 : exampleDepreciation.Value exampleGunship 0 = exampleGunship.Cost
      ∨ exampleGunship.Cost ≠ 0 := by decide!
  obtain ⟨d, hd, -, -, -, hw⟩ :=
    firing_row exampleEnv exampleGunship exampleDepreciation 0 {} h1
  have h2 := hw exampleLaser rfl rfl rfl rfl rfl
  refine ⟨h1, d, hd, h2.1.trans ?_, h2.2.trans ?_⟩
  · decide!
  · decide!

/-- C10: the fourth row of the table is labelled "shields / hull:" when shield
energy and hull energy are both nonzero, "repairing hull:" when only hull energy
is nonzero, and "charging shields:" when hull energy is zero; its energy value
is `-60 * (shield energy + hull energy)` and its heat value
`60 * (shield heat + hull heat)`. -/
theorem regen_row (E : Env) (ship : Ship) (depreciation : Depreciation) (day : Int)
    (self : Display)
    (hdef : depreciation.Value ship day = ship.Cost ∨ ship.Cost ≠ 0) :
    ∃ d, UpdateAttributes E ship depreciation day self = some d
      ∧ (ship.Attributes.Get "shield energy" ≠ 0 → ship.Attributes.Get "hull energy" ≠ 0 →
          d.tableLabels[3]? = some "shields / hull:")
      ∧ (ship.Attributes.Get "shield energy" = 0 → ship.Attributes.Get "hull energy" ≠ 0 →
          d.tableLabels[3]? = some "repairing hull:")
      ∧ (ship.Attributes.Get "hull energy" = 0 → d.tableLabels[3]? = some "charging shields:")
      ∧ d.energyTable[3]? = some (E.Number
          (-60 * (ship.Attributes.Get "shield energy" + ship.Attributes.Get "hull energy")))
      ∧ d.heatTable[3]? = some (E.Number
          (60 * (ship.Attributes.Get "shield heat" + ship.Attributes.Get "hull heat"))) := by
  obtain ⟨d, hd, -, -, -, ht, he, hh, -⟩ :=
    UpdateAttributes_spec E ship depreciation day self hdef
  refine ⟨d, hd, ?_, ?_, ?_, by rw [he]; rfl, by rw [hh]; rfl⟩
  · intro hs hhull
    rw [ht]; simp [regenLabel, hs, hhull]
  · intro hs hhull
    rw [ht]; simp [regenLabel, hs, hhull]
  · intro hhull
    rw [ht]; simp [regenLabel, hhull]

/-- C10, witness: the example ship, which spends no energy on shields or hull,
shows "charging shields:". -/
theorem regen_row_witness :
    (exampleDepreciation.Value exampleShip 1 = exampleShip.Cost ∨ exampleShip.Cost ≠ 0)
      ∧ exampleShip.Attributes.Get "hull energy" = 0
      ∧ ∃ d, UpdateAttributes exampleEnv exampleShip exampleDepreciation 1 {} = some d
          ∧ d.tableLabels[3]? = some "charging shields:" := by
  have h1 : exampleDepreciation.Value exampleShip 1 = exampleShip.Cost
      ∨ exampleShip.Cost ≠ 0 := by decide!
  have h2 : exampleShip.Attributes.Get "hull energy" = 0 := by decide!
  obtain ⟨d, hd, -, -, h3, -⟩ := regen_row exampleEnv exampleShip exampleDepreciation 1 {} h1
  exact ⟨h1, h2, d, hd, h3 h2⟩

/-! ## The sale list -/

/-- C5: the sale list is the header line, the "empty hull:" line with the value
that `Value` gives for the base model of the ship, and the "  + outfits:" line
with the value of the ship minus that value of the base model, in that order.
The base model is what `GameData::Ships()` holds under the model name of the
ship; the ship is valued by the overload of `Value` that takes a ship, the base
model by the overload that takes the pointer to a model. -/
theorem sale_lines (E : Env) (ship : Ship) (depreciation : Depreciation) (day : Int)
    (self : Display) :
    (UpdateOutfits E ship depreciation day self).saleLabels
        = ["This ship will sell for:", "empty hull:", "  + outfits:"]
      ∧ (UpdateOutfits E ship depreciation day self).saleValues
        = ["",
           E.Number ((depreciation.ValueOfModel (E.Ships ship.ModelName) day : Int) : ℚ),
           E.Number ((depreciation.Value ship day
             - depreciation.ValueOfModel (E.Ships ship.ModelName) day : Int) : ℚ)] := by
  simp [UpdateOutfits]

/-- C9, as the code has it: the sale height is the top margin 20, plus 20 for
the header line, 20 for the hull line, and 5 for the outfits line. -/
theorem saleHeight_eq (E : Env) (ship : Ship) (depreciation : Depreciation) (day : Int)
    (self : Display) :
    (UpdateOutfits E ship depreciation day self).saleHeight = 20 + 20 + 20 + 5
      ∧ lineCount (UpdateOutfits E ship depreciation day self).saleLines = 3
      ∧ spacerCount (UpdateOutfits E ship depreciation day self).saleLines = 0 := by
  refine ⟨by simp [UpdateOutfits], ?_, ?_⟩
  · simp [UpdateOutfits, Display.saleLines, lineCount, List.filter_cons, isSpacer]
  · simp [UpdateOutfits, Display.saleLines, spacerCount, List.filter_cons, isSpacer]

/-- C9, as stated, fails: for the example ship the sale height is 65, while the
top margin plus 20 for each of the three lines of the sale list is 80. -/
theorem saleHeight_counterexample :
    (UpdateOutfits exampleEnv exampleShip exampleDepreciation 0 {}).saleHeight = 65
      ∧ 20 + 20 * lineCount (UpdateOutfits exampleEnv exampleShip exampleDepreciation 0 {}).saleLines
          + 10 * spacerCount
              (UpdateOutfits exampleEnv exampleShip exampleDepreciation 0 {}).saleLines
        = 80 := by
  decide!


/-! ## The listing of the outfits -/

/-- Looking up in a list of entries computed from their keys. -/
theorem find_map_key {V : Type} (f : String → V) (ks : List String) (k : String) :
    StdMap.find (ks.map (fun x => (x, f x))) k = if k ∈ ks then some (f k) else none := by
  induction ks with
  | nil => simp
  | cons x ks ih =>
    rw [List.map_cons, StdMap.find_cons, ih]
    by_cases h : k = x
    · subst h; simp
    · simp [h]

theorem keys_map_key {V : Type} (f : String → V) (ks : List String) :
    StdMap.keys (ks.map (fun x => (x, f x))) = ks := by
  simp [StdMap.keys, Function.comp_def]

/-- A duplicate-free list sorted ascending is strictly ascending. -/
theorem pairwise_lt_sort_dedup (l : List String) :
    (l.dedup.insertionSort (· ≤ ·)).Pairwise (· < ·) := by
  have h1 : (l.dedup.insertionSort (· ≤ ·)).Sorted (· ≤ ·) := List.sorted_insertionSort _ _
  have h2 : (l.dedup.insertionSort (· ≤ ·)).Nodup :=
    (List.perm_insertionSort _ _).nodup_iff.mpr (List.nodup_dedup l)
  exact h1.lt_of_le h2

theorem mem_sort_dedup (l : List String) (x : String) :
    x ∈ l.dedup.insertionSort (· ≤ ·) ↔ x ∈ l := by
  rw [List.mem_insertionSort, List.mem_dedup]

theorem mem_categories {outfits : List (Outfit × Int)} {c : String} :
    c ∈ categories outfits ↔ ∃ it ∈ outfits, it.1.Category = c := by
  simp [categories, mem_sort_dedup]

theorem mem_namesIn {outfits : List (Outfit × Int)} {c n : String} :
    n ∈ namesIn outfits c ↔ ∃ it ∈ outfits, it.1.Category = c ∧ it.1.Name = n := by
  simp [namesIn, mem_sort_dedup, and_assoc]

/-- One more installed outfit adds its quantity under its category and name. -/
theorem quantity_append_singleton (outfits : List (Outfit × Int)) (x : Outfit × Int)
    (c n : String) :
    quantity (outfits ++ [x]) c n
      = quantity outfits c n + (if x.1.Category = c ∧ x.1.Name = n then x.2 else 0) := by
  unfold quantity
  rw [List.filter_append, List.map_append, List.sum_append]
  by_cases h : x.1.Category = c ∧ x.1.Name = n
  · simp [List.filter_cons, h]
  · simp [List.filter_cons, h]

/-- The summed quantity is zero where no installed outfit has the category and
the name. -/
theorem quantity_eq_zero {outfits : List (Outfit × Int)} {c n : String}
    (h : ¬ ∃ it ∈ outfits, it.1.Category = c ∧ it.1.Name = n) : quantity outfits c n = 0 := by
  unfold quantity
  have : outfits.filter (fun it => it.1.Category = c ∧ it.1.Name = n) = [] := by
    rw [List.filter_eq_nil_iff]
    intro it hit hp
    exact h ⟨it, hit, by simpa using hp⟩
  rw [this]; rfl

/-- One more installed outfit is one more step of the loop of lines 364-365. -/
theorem listing_append_singleton (outfits : List (Outfit × Int)) (x : Outfit × Int) :
    listing (outfits ++ [x])
      = StdMap.modify (StdMap.modify (fun n => n + x.2) 0 x.1.Name) [] x.1.Category
          (listing outfits) := by
  simp [listing, List.foldl_append]

/-- What the listing holds after the loop of lines 364-365: it is well-formed,
so is each of its inner maps, it has an entry for exactly the categories of the
installed outfits, and under a category and a name it holds the summed quantity
of the installed outfits of that category and name. -/
theorem listing_invariant (outfits : List (Outfit × Int)) :
    StdMap.WF (listing outfits)
      ∧ (∀ c, StdMap.WF (StdMap.get [] (listing outfits) c))
      ∧ (∀ c, (StdMap.find (listing outfits) c).isSome = true ↔ ∃ it ∈ outfits, it.1.Category = c)
      ∧ (∀ c n, StdMap.find (StdMap.get [] (listing outfits) c) n
          = if (∃ it ∈ outfits, it.1.Category = c ∧ it.1.Name = n)
              then some (quantity outfits c n) else none) := by
  induction outfits using List.reverseRecOn with
  | nil =>
    refine ⟨StdMap.wf_nil, fun c => StdMap.wf_nil, ?_, ?_⟩
    · intro c; simp [listing]
    · intro c n; simp [listing, StdMap.get]
  | append_singleton outfits x ih =>
    obtain ⟨hwf, hinner, hcat, hqty⟩ := ih
    have hget : ∀ c, StdMap.get [] (listing (outfits ++ [x])) c
        = if c = x.1.Category
            then StdMap.modify (fun n => n + x.2) 0 x.1.Name (StdMap.get [] (listing outfits) c)
            else StdMap.get [] (listing outfits) c := by
      intro c
      rw [listing_append_singleton, StdMap.get_modify _ _ _ hwf]
      by_cases hc : c = x.1.Category
      · subst hc; simp
      · simp [hc]
    refine ⟨?_, ?_, ?_, ?_⟩
    · rw [listing_append_singleton]; exact StdMap.wf_modify _ _ _ hwf
    · intro c
      rw [hget]
      by_cases hc : c = x.1.Category
      · rw [if_pos hc]; exact StdMap.wf_modify _ _ _ (hinner c)
      · rw [if_neg hc]; exact hinner c
    · intro c
      rw [listing_append_singleton, StdMap.find_modify _ _ _ hwf]
      by_cases hc : c = x.1.Category
      · subst hc
        simp only [if_true, Option.isSome_some, true_iff]
        exact ⟨x, by simp, rfl⟩
      · rw [if_neg hc, hcat c]
        constructor
        · rintro ⟨it, hit, he⟩
          exact ⟨it, List.mem_append_left _ hit, he⟩
        · rintro ⟨it, hit, he⟩
          rcases List.mem_append.mp hit with hit | hit
          · exact ⟨it, hit, he⟩
          · simp only [List.mem_singleton] at hit
            subst hit
            exact absurd he.symm hc
    · intro c n
      rw [hget, quantity_append_singleton]
      by_cases hc : c = x.1.Category
      · rw [if_pos hc, StdMap.find_modify _ _ _ (hinner c)]
        by_cases hn : n = x.1.Name
        · have hex : ∃ it ∈ outfits ++ [x], it.1.Category = c ∧ it.1.Name = n :=
            ⟨x, by simp, hc.symm, hn.symm⟩
          rw [if_pos hn, if_pos hex, if_pos ⟨hc.symm, hn.symm⟩]
          congr 1
          rw [← hn]
          show (StdMap.find (StdMap.get [] (listing outfits) c) n).getD 0 + x.2 = _
          rw [hqty c n]
          by_cases hold : ∃ it ∈ outfits, it.1.Category = c ∧ it.1.Name = n
          · simp [hold]
          · simp [hold, quantity_eq_zero hold]
        · have hx : ¬ (x.1.Category = c ∧ x.1.Name = n) := fun h => hn h.2.symm
          rw [if_neg hn, hqty c n, if_neg hx, add_zero]
          have hiff : (∃ it ∈ outfits ++ [x], it.1.Category = c ∧ it.1.Name = n)
              ↔ ∃ it ∈ outfits, it.1.Category = c ∧ it.1.Name = n := by
            constructor
            · rintro ⟨it, hit, he⟩
              rcases List.mem_append.mp hit with hit | hit
              · exact ⟨it, hit, he⟩
              · simp only [List.mem_singleton] at hit
                subst hit
                exact absurd he hx
            · rintro ⟨it, hit, he⟩
              exact ⟨it, List.mem_append_left _ hit, he⟩
          simp only [hiff]
      · have hx : ¬ (x.1.Category = c ∧ x.1.Name = n) := fun h => hc h.1.symm
        rw [if_neg hc, hqty c n, if_neg hx, add_zero]
        have hiff : (∃ it ∈ outfits ++ [x], it.1.Category = c ∧ it.1.Name = n)
            ↔ ∃ it ∈ outfits, it.1.Category = c ∧ it.1.Name = n := by
          constructor
          · rintro ⟨it, hit, he⟩
            rcases List.mem_append.mp hit with hit | hit
            · exact ⟨it, hit, he⟩
            · simp only [List.mem_singleton] at hit
              subst hit
              exact absurd he hx
          · rintro ⟨it, hit, he⟩
            exact ⟨it, List.mem_append_left _ hit, he⟩
        simp only [hiff]

/-- The listing is the table of the summed quantities, by ascending category and
ascending name. -/
theorem listing_eq (outfits : List (Outfit × Int)) :
    listing outfits
      = (categories outfits).map
          (fun c => (c, (namesIn outfits c).map (fun n => (n, quantity outfits c n)))) := by
  obtain ⟨hwf, hinner, hcat, hqty⟩ := listing_invariant outfits
  apply StdMap.ext hwf
  · unfold StdMap.WF
    rw [keys_map_key]
    exact pairwise_lt_sort_dedup _
  · intro c
    rw [find_map_key]
    by_cases hc : c ∈ categories outfits
    · rw [if_pos hc]
      have hsome := (hcat c).mpr (mem_categories.mp hc)
      obtain ⟨m, hm⟩ := Option.isSome_iff_exists.mp hsome
      have hgetc : StdMap.get [] (listing outfits) c = m := by simp [StdMap.get, hm]
      rw [hm]
      congr 1
      have hwfm : StdMap.WF m := hgetc ▸ hinner c
      apply StdMap.ext hwfm
      · unfold StdMap.WF
        rw [keys_map_key]
        exact pairwise_lt_sort_dedup _
      · intro n
        rw [find_map_key, ← hgetc, hqty c n]
        simp only [mem_namesIn]
    · rw [if_neg hc]
      have hnone : ¬ (StdMap.find (listing outfits) c).isSome = true :=
        fun h => hc (mem_categories.mpr ((hcat c).mp h))
      simpa using hnone


theorem toDigitsCore_ne_nil (b : Nat) (fuel n : Nat) (ds : List Char) (h : ds ≠ []) :
    Nat.toDigitsCore b fuel n ds ≠ [] := by
  induction fuel generalizing n ds with
  | zero => simpa [Nat.toDigitsCore] using h
  | succ fuel ih =>
    unfold Nat.toDigitsCore
    simp only []
    split
    · simp
    · exact ih _ _ (by simp)

theorem toDigits_ne_nil (b n : Nat) : Nat.toDigits b n ≠ [] := by
  unfold Nat.toDigits Nat.toDigitsCore
  simp only []
  split
  · simp
  · exact toDigitsCore_ne_nil _ _ _ _ (by simp)

theorem natRepr_ne_empty (n : Nat) : Nat.repr n ≠ "" := by
  intro h
  have hd := congrArg String.data h
  simp only [Nat.repr, List.asString] at hd
  exact toDigits_ne_nil 10 n hd

/-- The decimal form of an integer is not empty. -/
theorem toString_int_ne_empty (q : Int) : toString q ≠ "" := by
  cases q with
  | ofNat n => exact natRepr_ne_empty n
  | negSucc n =>
    show "-" ++ Nat.repr (n + 1) ≠ ""
    exact append_ne_empty _ _ (natRepr_ne_empty _)


/-! ## The outfit list -/

/-- The inner loop of lines 381-386 pushes one line per name of the category and
adds 20 for each. -/
theorem nameLoop_eq (m : StdMap Int) (init : List String × List String × Int) :
    m.foldl (fun acc it => (acc.1 ++ [it.1], acc.2.1 ++ [toString it.2], acc.2.2 + 20)) init
      = (init.1 ++ m.map (fun it => it.1),
         init.2.1 ++ m.map (fun it => toString it.2),
         init.2.2 + 20 * (m.length : Int)) := by
  induction m generalizing init with
  | nil => simp
  | cons it m ih =>
    rw [List.foldl_cons, ih]
    simp only [List.map_cons, List.append_assoc, List.singleton_append, List.length_cons,
      Prod.mk.injEq, true_and]
    push_cast
    ring

theorem spacerCount_nil : spacerCount [] = 0 := rfl

theorem lineCount_nil : lineCount [] = 0 := rfl

theorem spacerCount_cons (line : String × String) (l : List (String × String)) :
    spacerCount (line :: l) = (if isSpacer line then 1 else 0) + spacerCount l := by
  unfold spacerCount
  by_cases h : isSpacer line = true
  · simp [List.filter_cons, h]; ring
  · simp [List.filter_cons, h]

theorem lineCount_cons (line : String × String) (l : List (String × String)) :
    lineCount (line :: l) = (if isSpacer line then 0 else 1) + lineCount l := by
  unfold lineCount
  by_cases h : isSpacer line = true
  · simp [List.filter_cons, h]
  · simp [List.filter_cons, h]; ring

/-- The name lines of a category are not spacers. -/
theorem nameLines_counts (names : List String) (f : String → Int) :
    spacerCount (names.map (fun n => (n, toString (f n)))) = 0
      ∧ lineCount (names.map (fun n => (n, toString (f n)))) = names.length := by
  induction names with
  | nil => exact ⟨rfl, rfl⟩
  | cons n names ih =>
    have hne : isSpacer (n, toString (f n)) = false := by
      have := toString_int_ne_empty (f n)
      simp [isSpacer, this]
    rw [List.map_cons, spacerCount_cons, lineCount_cons, hne, ih.1, ih.2]
    simp
    ring

/-- The header line of a category is not a spacer. -/
theorem isSpacer_header (c : String) : isSpacer (c ++ ":", "") = false := by
  have := append_ne_empty c ":" (by decide)
  simp [isSpacer, this]

/-- The counts of one category block. -/
theorem categoryBlock_counts (outfits : List (Outfit × Int)) (index : Nat) (c : String) :
    spacerCount (categoryBlock outfits index c) = (if index = 0 then 0 else 1)
      ∧ lineCount (categoryBlock outfits index c) = 1 + (namesIn outfits c).length := by
  unfold categoryBlock
  rw [spacerCount_append, spacerCount_append, lineCount_append, lineCount_append,
    (nameLines_counts _ _).1, (nameLines_counts _ _).2, spacerCount_cons, lineCount_cons,
    isSpacer_header, spacerCount_nil, lineCount_nil]
  by_cases h : index = 0
  · simp [h, spacerCount_nil, lineCount_nil]
  · simp [h, spacerCount_cons, lineCount_cons, spacerCount_nil, lineCount_nil, isSpacer]

/-- The loop of lines 367-387 over the table of summed quantities pushes the
category blocks in order and adds 20 per line and 10 per spacer. -/
theorem outfitLoop_from (outfits : List (Outfit × Int)) (cats : List String) (start : Nat)
    (init : List String × List String × Int) :
    ((cats.map (fun c => (c, (namesIn outfits c).map (fun n => (n, quantity outfits c n))))).enumFrom
        start).foldl
        (fun acc cit =>
          let acc : List String × List String × Int :=
            if cit.1 ≠ 0 then (acc.1 ++ [""], acc.2.1 ++ [""], acc.2.2 + 10) else acc
          let acc : List String × List String × Int :=
            (acc.1 ++ [cit.2.1 ++ ":"], acc.2.1 ++ [""], acc.2.2 + 20)
          cit.2.2.foldl
            (fun acc it => (acc.1 ++ [it.1], acc.2.1 ++ [toString it.2], acc.2.2 + 20))
            acc)
        init
      = (init.1 ++ ((cats.enumFrom start).flatMap
            (fun ic => categoryBlock outfits ic.1 ic.2)).map Prod.fst,
         init.2.1 ++ ((cats.enumFrom start).flatMap
            (fun ic => categoryBlock outfits ic.1 ic.2)).map Prod.snd,
         init.2.2
           + 20 * lineCount ((cats.enumFrom start).flatMap
              (fun ic => categoryBlock outfits ic.1 ic.2))
           + 10 * spacerCount ((cats.enumFrom start).flatMap
              (fun ic => categoryBlock outfits ic.1 ic.2))) := by
  induction cats generalizing start init with
  | nil => simp [spacerCount_nil, lineCount_nil]
  | cons c cats ih =>
    rw [List.map_cons, List.enumFrom_cons, List.foldl_cons, ih, List.enumFrom_cons,
      List.flatMap_cons, lineCount_append, spacerCount_append,
      (categoryBlock_counts outfits start c).1, (categoryBlock_counts outfits start c).2]
    simp only [nameLoop_eq]
    by_cases h : start = 0
    · simp [h, categoryBlock, Function.comp_def]
      ring
    · simp [h, categoryBlock, Function.comp_def]
      ring

/-- The outfit list and the outfit height that `UpdateOutfits` leaves. -/
theorem UpdateOutfits_spec (E : Env) (ship : Ship) (depreciation : Depreciation) (day : Int)
    (self : Display) :
    (UpdateOutfits E ship depreciation day self).outfitLabels
        = (listedOutfits ship.Outfits).map Prod.fst
      ∧ (UpdateOutfits E ship depreciation day self).outfitValues
        = (listedOutfits ship.Outfits).map Prod.snd
      ∧ (UpdateOutfits E ship depreciation day self).outfitsHeight
        = 20 + 20 * lineCount (listedOutfits ship.Outfits)
            + 10 * spacerCount (listedOutfits ship.Outfits) := by
  have h := outfitLoop_from ship.Outfits (categories ship.Outfits) 0 ([], [], 20)
  simp only [UpdateOutfits, outfitLoop, listing_eq, List.enum, listedOutfits]
  rw [h]
  simp


/-- The listing depends on the installed outfits only through their categories,
names and quantities. -/
theorem listing_congr {outfits outfits' : List (Outfit × Int)}
    (h : outfits.map (fun it => (it.1.Category, it.1.Name, it.2))
          = outfits'.map (fun it => (it.1.Category, it.1.Name, it.2))) :
    listing outfits = listing outfits' := by
  have key : ∀ l : List (Outfit × Int), listing l
      = (l.map (fun it => (it.1.Category, it.1.Name, it.2))).foldl
          (fun (m : StdMap (StdMap Int)) (t : String × String × Int) =>
            StdMap.modify (StdMap.modify (fun n => n + t.2.2) 0 t.2.1) [] t.1 m) [] := by
    intro l
    unfold listing
    rw [List.foldl_map]
  rw [key, key, h]

/-- The number of non-spacer lines of consecutive category blocks. -/
theorem lineCount_blocks (outfits : List (Outfit × Int)) (cats : List String) (start : Nat) :
    lineCount ((cats.enumFrom start).flatMap (fun ic => categoryBlock outfits ic.1 ic.2))
      = (cats.length : Int) + ((cats.map (fun c => (namesIn outfits c).length)).sum : Nat) := by
  induction cats generalizing start with
  | nil => simp [lineCount_nil]
  | cons c cats ih =>
    rw [List.enumFrom_cons, List.flatMap_cons, lineCount_append, ih,
      (categoryBlock_counts outfits start c).2]
    simp only [List.length_cons, List.map_cons, List.sum_cons]
    push_cast
    ring

/-- After the first position every category block starts with a spacer. -/
theorem spacerCount_blocks_succ (outfits : List (Outfit × Int)) (cats : List String)
    (start : Nat) :
    spacerCount ((cats.enumFrom (start + 1)).flatMap
        (fun ic => categoryBlock outfits ic.1 ic.2))
      = (cats.length : Int) := by
  induction cats generalizing start with
  | nil => simp [spacerCount_nil]
  | cons c cats ih =>
    rw [List.enumFrom_cons, List.flatMap_cons, spacerCount_append, ih,
      (categoryBlock_counts outfits (start + 1) c).1]
    simp only [List.length_cons, Nat.succ_ne_zero, if_false]
    push_cast
    ring

/-- The number of spacers of the category blocks: one less than the number of
categories, if there is any. -/
theorem spacerCount_blocks (outfits : List (Outfit × Int)) (cats : List String) :
    spacerCount (cats.enum.flatMap (fun ic => categoryBlock outfits ic.1 ic.2))
      = max ((cats.length : Int) - 1) 0 := by
  cases cats with
  | nil => simp [List.enum, spacerCount_nil]
  | cons c cats =>
    rw [List.enum, List.enumFrom_cons, List.flatMap_cons, spacerCount_append,
      spacerCount_blocks_succ, (categoryBlock_counts outfits 0 c).1]
    simp only [if_true, List.length_cons]
    push_cast
    rw [max_eq_left (by omega)]
    ring

/-- The names listed over all categories are as many as the distinct
(category, name) pairs. -/
theorem sum_namesIn_length (outfits : List (Outfit × Int)) :
    ((categories outfits).map (fun c => (namesIn outfits c).length)).sum
      = (distinctPairs outfits).length := by
  have hlen : ((categories outfits).flatMap
      (fun c => (namesIn outfits c).map (fun n => (c, n)))).length
      = ((categories outfits).map (fun c => (namesIn outfits c).length)).sum := by
    induction categories outfits with
    | nil => rfl
    | cons c cs ih => simp [List.flatMap_cons, ih]
  rw [← hlen]
  apply List.Perm.length_eq
  rw [List.perm_ext_iff_of_nodup]
  · intro p
    obtain ⟨c, n⟩ := p
    simp only [List.mem_flatMap, List.mem_map, Prod.mk.injEq, distinctPairs, List.mem_dedup]
    constructor
    · rintro ⟨c', -, n', hn', rfl, rfl⟩
      obtain ⟨it, hit, hc, hn⟩ := mem_namesIn.mp hn'
      exact ⟨it, hit, hc, hn⟩
    · rintro ⟨it, hit, hc, hn⟩
      exact ⟨c, mem_categories.mpr ⟨it, hit, hc⟩, n, mem_namesIn.mpr ⟨it, hit, hc, hn⟩, rfl, rfl⟩
  · rw [List.nodup_flatMap]
    constructor
    · intro c _
      have hnd : (namesIn outfits c).Nodup :=
        (List.perm_insertionSort _ _).nodup_iff.mpr (List.nodup_dedup _)
      exact hnd.map (fun a b hab => (Prod.mk.inj hab).2)
    · have hnd : (categories outfits).Nodup :=
        (List.perm_insertionSort _ _).nodup_iff.mpr (List.nodup_dedup _)
      refine List.Pairwise.imp ?_ hnd
      intro c c' hne
      show List.Disjoint _ _
      intro p hp hp'
      obtain ⟨n, -, rfl⟩ := List.mem_map.mp hp
      obtain ⟨n', -, he⟩ := List.mem_map.mp hp'
      exact hne (Prod.mk.inj he).1.symm
  · exact List.nodup_dedup _

/-- The counts of the outfit list. -/
theorem listedOutfits_counts (outfits : List (Outfit × Int)) :
    lineCount (listedOutfits outfits)
        = ((categories outfits).length : Int) + ((distinctPairs outfits).length : Int)
      ∧ spacerCount (listedOutfits outfits)
        = max (((categories outfits).length : Int) - 1) 0 := by
  unfold listedOutfits
  refine ⟨?_, spacerCount_blocks outfits _⟩
  rw [List.enum, lineCount_blocks, sum_namesIn_length]


/-- C7: the outfit list is the concatenation, over the distinct categories in
ascending order, of a blank spacer line unless the category is the first, a
header line (category and colon, empty value), and one line per distinct name
of the category in ascending order whose value is the summed quantity of the
installed outfits with that category and name.  Two "Laser" and one "Blaster",
both of category "Weapon", give the header "Weapon:" followed by "Blaster" with
1 and "Laser" with 2; with three "Outfits Expansion" of category "Systems"
installed as well, the category "Weapon" comes second and exactly one spacer
stands before its header. -/
theorem outfit_listing (E : Env) (ship : Ship) (depreciation : Depreciation) (day : Int)
    (self : Display) :
    (UpdateOutfits E ship depreciation day self).outfitLabels
        = (listedOutfits ship.Outfits).map Prod.fst
      ∧ (UpdateOutfits E ship depreciation day self).outfitValues
        = (listedOutfits ship.Outfits).map Prod.snd
      ∧ (∀ laser blaster : Outfit, ship.Outfits = [(laser, 2), (blaster, 1)] →
          laser.Name = "Laser" → laser.Category = "Weapon" →
          blaster.Name = "Blaster" → blaster.Category = "Weapon" →
          (UpdateOutfits E ship depreciation day self).outfitLabels
              = ["Weapon:", "Blaster", "Laser"]
            ∧ (UpdateOutfits E ship depreciation day self).outfitValues = ["", "1", "2"])
      ∧ (∀ laser expansion blaster : Outfit,
          ship.Outfits = [(laser, 2), (expansion, 3), (blaster, 1)] →
          laser.Name = "Laser" → laser.Category = "Weapon" →
          expansion.Name = "Outfits Expansion" → expansion.Category = "Systems" →
          blaster.Name = "Blaster" → blaster.Category = "Weapon" →
          (UpdateOutfits E ship depreciation day self).outfitLabels
              = ["Systems:", "Outfits Expansion", "", "Weapon:", "Blaster", "Laser"]
            ∧ (UpdateOutfits E ship depreciation day self).outfitValues
              = ["", "3", "", "", "1", "2"]) := by
  have hl : (UpdateOutfits E ship depreciation day self).outfitLabels
      = (outfitLoop (listing ship.Outfits) ([], [], 20)).1 := rfl
  have hv : (UpdateOutfits E ship depreciation day self).outfitValues
      = (outfitLoop (listing ship.Outfits) ([], [], 20)).2.1 := rfl
  refine ⟨(UpdateOutfits_spec E ship depreciation day self).1,
    (UpdateOutfits_spec E ship depreciation day self).2.1, ?_, ?_⟩
  · intro laser blaster hout h1 h2 h3 h4
    have hc : listing ship.Outfits = listing [(exampleLaser, 2), (exampleBlaster, 1)] := by
      apply listing_congr
      rw [hout]
      simp [h1, h2, h3, h4, exampleLaser, exampleBlaster]
    rw [hl, hv, hc]
    exact ⟨by decide!, by decide!⟩
  · intro laser expansion blaster hout h1 h2 h3 h4 h5 h6
    have hc : listing ship.Outfits
        = listing [(exampleLaser, 2), (exampleExpansion, 3), (exampleBlaster, 1)] := by
      apply listing_congr
      rw [hout]
      simp [h1, h2, h3, h4, h5, h6, exampleLaser, exampleBlaster, exampleExpansion]
    rw [hl, hv, hc]
    exact ⟨by decide!, by decide!⟩

/-- C7, witness: the example ships with two lasers and a blaster, without and
with three outfit expansions. -/
theorem outfit_listing_witness :
    ((UpdateOutfits exampleEnv exampleArmed exampleDepreciation 0 {}).outfitLabels
          = ["Weapon:", "Blaster", "Laser"]
        ∧ (UpdateOutfits exampleEnv exampleArmed exampleDepreciation 0 {}).outfitValues
          = ["", "1", "2"])
      ∧ ((UpdateOutfits exampleEnv exampleMixed exampleDepreciation 0 {}).outfitLabels
          = ["Systems:", "Outfits Expansion", "", "Weapon:", "Blaster", "Laser"]
        ∧ (UpdateOutfits exampleEnv exampleMixed exampleDepreciation 0 {}).outfitValues
          = ["", "3", "", "", "1", "2"]) :=
  ⟨(outfit_listing exampleEnv exampleArmed exampleDepreciation 0 {}).2.2.1
      exampleLaser exampleBlaster rfl rfl rfl rfl rfl,
    (outfit_listing exampleEnv exampleMixed exampleDepreciation 0 {}).2.2.2
      exampleLaser exampleExpansion exampleBlaster rfl rfl rfl rfl rfl rfl rfl⟩

/-- C8: the outfit height is 20, plus 20 for every non-spacer line of the outfit
list, plus 10 for every spacer; with `c` distinct categories and `n` distinct
(category, name) pairs it is `20 + 20 * (c + n) + 10 * max (c - 1) 0`. -/
theorem outfitsHeight_bookkeeping (E : Env) (ship : Ship) (depreciation : Depreciation)
    (day : Int) (self : Display) :
    (UpdateOutfits E ship depreciation day self).outfitsHeight
        = 20 + 20 * lineCount (UpdateOutfits E ship depreciation day self).outfitLines
            + 10 * spacerCount (UpdateOutfits E ship depreciation day self).outfitLines
      ∧ (UpdateOutfits E ship depreciation day self).outfitsHeight
        = 20 + 20 * ((((ship.Outfits.map (fun it => it.1.Category)).dedup).length : Int)
                + (((ship.Outfits.map (fun it => (it.1.Category, it.1.Name))).dedup).length : Int))
            + 10 * max ((((ship.Outfits.map (fun it => it.1.Category)).dedup).length : Int) - 1)
                0 := by
  obtain ⟨hl, hv, hh⟩ := UpdateOutfits_spec E ship depreciation day self
  have hlines : (UpdateOutfits E ship depreciation day self).outfitLines
      = listedOutfits ship.Outfits := by
    unfold Display.outfitLines
    rw [hl, hv, zip_map_fst_snd]
  have hc : (categories ship.Outfits).length
      = ((ship.Outfits.map (fun it => it.1.Category)).dedup).length :=
    (List.perm_insertionSort _ _).length_eq
  refine ⟨by rw [hlines, hh], ?_⟩
  rw [hh, (listedOutfits_counts ship.Outfits).1, (listedOutfits_counts ship.Outfits).2, hc]
  rfl


/-! ## `Update` -/

/-- The cost percentage divides by zero: `UpdateAttributes` has no result. -/
theorem UpdateAttributes_eq_none (E : Env) (ship : Ship) (depreciation : Depreciation)
    (day : Int) (self : Display)
    (hne : depreciation.Value ship day ≠ ship.Cost) (hzero : ship.Cost = 0) :
    UpdateAttributes E ship depreciation day self = none := by
  have hne' : depreciation.Value ship day ≠ 0 := by rwa [hzero] at hne
  unfold UpdateAttributes
  simp only [hne', if_false, div64, hzero, if_true, pure, bind, Option.bind]

/-- What `UpdateAttributes` writes does not depend on the display it starts from. -/
theorem UpdateAttributes_independent (E : Env) (ship : Ship) (depreciation : Depreciation)
    (day : Int) (self₁ self₂ : Display)
    (hdef : depreciation.Value ship day = ship.Cost ∨ ship.Cost ≠ 0) :
    ∃ a₁ a₂, UpdateAttributes E ship depreciation day self₁ = some a₁
      ∧ UpdateAttributes E ship depreciation day self₂ = some a₂
      ∧ a₁.attributeLabels = a₂.attributeLabels
      ∧ a₁.attributeValues = a₂.attributeValues
      ∧ a₁.attributesHeight = a₂.attributesHeight
      ∧ a₁.tableLabels = a₂.tableLabels
      ∧ a₁.energyTable = a₂.energyTable
      ∧ a₁.heatTable = a₂.heatTable
      ∧ a₁.descriptionHeight = self₁.descriptionHeight := by
  obtain ⟨a₁, h₁, l₁, v₁, n₁, t₁, e₁, q₁, k₁, -⟩ :=
    UpdateAttributes_spec E ship depreciation day self₁ hdef
  obtain ⟨a₂, h₂, l₂, v₂, n₂, t₂, e₂, q₂, -⟩ :=
    UpdateAttributes_spec E ship depreciation day self₂ hdef
  exact ⟨a₁, a₂, h₁, h₂, l₁.trans l₂.symm, v₁.trans v₂.symm, n₁.trans n₂.symm,
    t₁.trans t₂.symm, e₁.trans e₂.symm, q₁.trans q₂.symm, k₁⟩

/-- The step of `Update` after `UpdateAttributes`. -/
theorem Update_eq_of_attributes (E : Env) (ship : Ship) (depreciation : Depreciation)
    (day : Int) (self a : Display)
    (h : UpdateAttributes E ship depreciation day
        { self with descriptionHeight := (E.UpdateDescription ship.Description
            ship.Attributes.Licenses true self.descriptionHeight) } = some a) :
    Update E ship depreciation day self
      = some { UpdateOutfits E ship depreciation day a with
          maximumHeight := max (UpdateOutfits E ship depreciation day a).descriptionHeight
            (max (UpdateOutfits E ship depreciation day a).attributesHeight
              (UpdateOutfits E ship depreciation day a).outfitsHeight) } := by
  unfold Update
  simp only [h, pure, bind, Option.bind]

/-- The result of `Update` in terms of the two passes run on an empty display:
only the description height is taken from the display it starts from, through
`UpdateDescription`. -/
theorem Update_full (E : Env) (ship : Ship) (depreciation : Depreciation)
    (day : Int) (self : Display)
    (hdef : depreciation.Value ship day = ship.Cost ∨ ship.Cost ≠ 0) :
    ∃ a, UpdateAttributes E ship depreciation day {} = some a
      ∧ Update E ship depreciation day self
        = some { UpdateOutfits E ship depreciation day a with
            descriptionHeight := (E.UpdateDescription ship.Description
              ship.Attributes.Licenses true self.descriptionHeight)
            maximumHeight := max (E.UpdateDescription ship.Description
                ship.Attributes.Licenses true self.descriptionHeight)
              (max a.attributesHeight (UpdateOutfits E ship depreciation day a).outfitsHeight) } := by
  obtain ⟨a₁, a₂, h₁, h₂, hl, hv, hn, ht, he, hq, hk⟩ :=
    UpdateAttributes_independent E ship depreciation day
      { self with descriptionHeight := (E.UpdateDescription ship.Description
          ship.Attributes.Licenses true self.descriptionHeight) } {} hdef
  refine ⟨a₂, h₂, ?_⟩
  rw [Update_eq_of_attributes E ship depreciation day self a₁ h₁]
  simp only [UpdateOutfits, hl, hv, hn, ht, he, hq, hk]

/-- What `Update` computes, in terms of the two passes. -/
theorem Update_computed (E : Env) (ship : Ship) (depreciation : Depreciation)
    (day : Int) (self : Display)
    (hdef : depreciation.Value ship day = ship.Cost ∨ ship.Cost ≠ 0) :
    ∃ d a, Update E ship depreciation day self = some d
      ∧ UpdateAttributes E ship depreciation day {} = some a
      ∧ d.computed = (UpdateOutfits E ship depreciation day a).computed := by
  obtain ⟨a, ha, hu⟩ := Update_full E ship depreciation day self hdef
  exact ⟨_, a, hu, ha, rfl⟩

/-- C11: `Update` recomputes everything from the ship: started from any two
displays it returns the same attribute, table, outfit and sale lists and the
same three heights, and a second call with the same arguments returns what the
first call returned.  Where the description pass of the base class does not
depend on the description height it finds, the two displays are equal in every
field. -/
theorem update_from_scratch (E : Env) (ship : Ship) (depreciation : Depreciation)
    (day : Int) (self₁ self₂ : Display)
    (hdef : depreciation.Value ship day = ship.Cost ∨ ship.Cost ≠ 0) :
    ∃ d₁ d₂ d₁', Update E ship depreciation day self₁ = some d₁
      ∧ Update E ship depreciation day self₂ = some d₂
      ∧ Update E ship depreciation day d₁ = some d₁'
      ∧ d₁.computed = d₂.computed
      ∧ d₁'.computed = d₁.computed
      ∧ ((∀ h h' : Int,
            E.UpdateDescription ship.Description ship.Attributes.Licenses true h
              = E.UpdateDescription ship.Description ship.Attributes.Licenses true h') →
          d₁ = d₂ ∧ d₁' = d₁) := by
  obtain ⟨a, ha, h₁⟩ := Update_full E ship depreciation day self₁ hdef
  obtain ⟨a₂, ha₂, h₂⟩ := Update_full E ship depreciation day self₂ hdef
  have e₂ : a₂ = a := Option.some.inj (ha₂.symm.trans ha)
  subst e₂
  obtain ⟨a₃, ha₃, h₃⟩ := Update_full E ship depreciation day _ hdef
  have e₃ : a₃ = a₂ := Option.some.inj (ha₃.symm.trans ha)
  subst e₃
  refine ⟨_, _, _, h₁, h₂, h₃, rfl, rfl, ?_⟩
  intro hUD
  constructor
  · rw [hUD self₁.descriptionHeight self₂.descriptionHeight]
  · simp only []
    rw [hUD (E.UpdateDescription ship.Description ship.Attributes.Licenses true
      self₁.descriptionHeight) self₁.descriptionHeight]

/-- C11, witness: the example ship, from an empty display and from a display
that holds stale lines and heights. -/
theorem update_from_scratch_witness :
    (exampleDepreciation.Value exampleShip 1 = exampleShip.Cost ∨ exampleShip.Cost ≠ 0)
      ∧ ∃ d₁ d₂ d₁', Update exampleEnv exampleShip exampleDepreciation 1 {} = some d₁
          ∧ Update exampleEnv exampleShip exampleDepreciation 1
              { attributeLabels := ["stale"], attributeValues := ["1", "2"],
                attributesHeight := 999, tableLabels := ["old:"], outfitLabels := ["x"],
                outfitsHeight := 7, saleLabels := ["y"], saleHeight := 3 } = some d₂
          ∧ Update exampleEnv exampleShip exampleDepreciation 1 d₁ = some d₁'
          ∧ d₁.computed = d₂.computed
          ∧ d₁'.computed = d₁.computed
          ∧ d₁ = d₂ ∧ d₁' = d₁ := by
  have h1 : exampleDepreciation.Value exampleShip 1 = exampleShip.Cost
      ∨ exampleShip.Cost ≠ 0 := by decide!
  obtain ⟨d₁, d₂, d₁', u₁, u₂, u₃, c₁, c₂, hfull⟩ :=
    update_from_scratch exampleEnv exampleShip exampleDepreciation 1 {}
      { attributeLabels := ["stale"], attributeValues := ["1", "2"],
        attributesHeight := 999, tableLabels := ["old:"], outfitLabels := ["x"],
        outfitsHeight := 7, saleLabels := ["y"], saleHeight := 3 } h1
  exact ⟨h1, d₁, d₂, d₁', u₁, u₂, u₃, c₁, c₂, hfull (fun _ _ => rfl)⟩


/-! ## Single lines of the attribute list -/

/-- C12: the third line is labelled "Shields:" and its value is the formatted
shields followed by the formatted `60 * shield generation` between " ( " and
" )" when the shield generation is not zero, and the formatted shields alone
when it is zero; likewise the fourth line, "Hull:", with the hull and the hull
repair rate.  All four numbers are read from the aggregated capacity map. -/
theorem shields_hull_lines (E : Env) (ship : Ship) (depreciation : Depreciation)
    (day : Int) (self : Display)
    (hdef : depreciation.Value ship day = ship.Cost ∨ ship.Cost ≠ 0) :
    ∃ d, UpdateAttributes E ship depreciation day self = some d
      ∧ d.attributeLabels[2]? = some "Shields:"
      ∧ (StdMap.get 0 (attributeMapBase ship) "shield generation" ≠ 0 →
          d.attributeValues[2]? = some
            (E.Number (StdMap.get 0 (attributeMapBase ship) "shields") ++ " ( "
              ++ E.Number (60 * StdMap.get 0 (attributeMapBase ship) "shield generation")
              ++ " )"))
      ∧ (StdMap.get 0 (attributeMapBase ship) "shield generation" = 0 →
          d.attributeValues[2]? = some
            (E.Number (StdMap.get 0 (attributeMapBase ship) "shields")))
      ∧ d.attributeLabels[3]? = some "Hull:"
      ∧ (StdMap.get 0 (attributeMapBase ship) "hull repair rate" ≠ 0 →
          d.attributeValues[3]? = some
            (E.Number (StdMap.get 0 (attributeMapBase ship) "hull") ++ " ( "
              ++ E.Number (60 * StdMap.get 0 (attributeMapBase ship) "hull repair rate")
              ++ " )"))
      ∧ (StdMap.get 0 (attributeMapBase ship) "hull repair rate" = 0 →
          d.attributeValues[3]? = some
            (E.Number (StdMap.get 0 (attributeMapBase ship) "hull"))) := by
  obtain ⟨d, hd, hl, hv, -⟩ := UpdateAttributes_spec E ship depreciation day self hdef
  refine ⟨d, hd, ?_, ?_, ?_, ?_, ?_, ?_⟩
  · rw [hl]; simp [headLines]
  · intro h; rw [hv]; simp [headLines, h]
  · intro h; rw [hv]; simp [headLines, h]
  · rw [hl]; simp [headLines]
  · intro h; rw [hv]; simp [headLines, h]
  · intro h; rw [hv]; simp [headLines, h]

/-- C12, witness: the example ship has no shield generation and shows its
shields alone. -/
theorem shields_hull_lines_witness :
    (exampleDepreciation.Value exampleShip 0 = exampleShip.Cost ∨ exampleShip.Cost ≠ 0)
      ∧ StdMap.get 0 (attributeMapBase exampleShip) "shield generation" = 0
      ∧ ∃ d, UpdateAttributes exampleEnv exampleShip exampleDepreciation 0 {} = some d
          ∧ d.attributeLabels[2]? = some "Shields:"
          ∧ d.attributeValues[2]? = some "600" := by
  have h1 : exampleDepreciation.Value exampleShip 0 = exampleShip.Cost
      ∨ exampleShip.Cost ≠ 0 := by decide!
  have h2 : StdMap.get 0 (attributeMapBase exampleShip) "shield generation" = 0 := by decide!
  obtain ⟨d, hd, hl, -, hv, -⟩ :=
    shields_hull_lines exampleEnv exampleShip exampleDepreciation 0 {} h1
  exact ⟨h1, h2, d, hd, hl, (hv h2).trans (by decide!)⟩

/-- The call `Format::Number(a / b)` with a divisor that is not zero formats the
quotient. -/
theorem NumberQuotient_of_ne_zero (E : Env) (a : ℚ) {b : ℚ} (h : b ≠ 0) :
    E.NumberQuotient a b = E.Number (a / b) := by
  simp [Env.NumberQuotient, h]

/-- C13: the forward thrust is the thrust when that is not zero and the
afterburner thrust otherwise; the full mass is the empty mass plus the cargo
space for a generic ship and plus the cargo in use otherwise; and for a ship
with nonzero drag and nonzero full mass the "max speed:" value is the formatted
`60 * forward thrust / drag`, the acceleration figure the formatted
`3600 * forward thrust / full mass` and the turning figure the formatted
`60 * turn / full mass`.  In the narrowed generic mode each of the two is
followed by " / " and the same call of `Format::Number` on the quotient by the
empty mass, which formats that quotient when the empty mass is not zero.  The
three quotients are exact: multiplied by their divisor they give back the
dividend. -/
theorem movement_figures (E : Env) (ship : Ship) (depreciation : Depreciation)
    (day : Int) (self : Display)
    (hdef : depreciation.Value ship day = ship.Cost ∨ ship.Cost ≠ 0)
    (hdrag : ship.Attributes.Get "drag" ≠ 0) (hmass : fullMass ship ≠ 0) :
    ∃ d, UpdateAttributes E ship depreciation day self = some d
      ∧ (ship.Attributes.Get "thrust" ≠ 0 →
          forwardThrust ship = ship.Attributes.Get "thrust")
      ∧ (ship.Attributes.Get "thrust" = 0 →
          forwardThrust ship = ship.Attributes.Get "afterburner thrust")
      ∧ ((ship.Name = "" ∨ ship.GetPlanet = true) →
          fullMass ship = ship.Mass + ship.Attributes.Get "cargo space")
      ∧ (¬ (ship.Name = "" ∨ ship.GetPlanet = true) →
          fullMass ship = ship.Mass + (ship.CargoUsed : ℚ))
      ∧ d.attributeLabels[10]? = some "max speed:"
      ∧ d.attributeValues[10]? = some
          (E.Number (60 * forwardThrust ship / ship.Attributes.Get "drag"))
      ∧ d.attributeLabels[11]? = some "acceleration:"
      ∧ (d.attributeValues[11]? = some (E.Number (3600 * forwardThrust ship / fullMass ship))
          ∨ d.attributeValues[11]? = some
              (E.Number (3600 * forwardThrust ship / fullMass ship) ++ " / "
                ++ E.NumberQuotient (3600 * forwardThrust ship) ship.Mass))
      ∧ d.attributeLabels[12]? = some "turning:"
      ∧ (d.attributeValues[12]? = some
            (E.Number (60 * ship.Attributes.Get "turn" / fullMass ship))
          ∨ d.attributeValues[12]? = some
              (E.Number (60 * ship.Attributes.Get "turn" / fullMass ship) ++ " / "
                ++ E.NumberQuotient (60 * ship.Attributes.Get "turn") ship.Mass))
      ∧ (ship.Mass ≠ 0 →
          E.NumberQuotient (3600 * forwardThrust ship) ship.Mass
              = E.Number (3600 * forwardThrust ship / ship.Mass)
            ∧ E.NumberQuotient (60 * ship.Attributes.Get "turn") ship.Mass
              = E.Number (60 * ship.Attributes.Get "turn" / ship.Mass))
      ∧ 60 * forwardThrust ship / ship.Attributes.Get "drag" * ship.Attributes.Get "drag"
          = 60 * forwardThrust ship
      ∧ 3600 * forwardThrust ship / fullMass ship * fullMass ship = 3600 * forwardThrust ship
      ∧ 60 * ship.Attributes.Get "turn" / fullMass ship * fullMass ship
          = 60 * ship.Attributes.Get "turn" := by
  obtain ⟨d, hd, hl, hv, -⟩ := UpdateAttributes_spec E ship depreciation day self hdef
  have hgen : isGeneric ship = true ↔ (ship.Name = "" ∨ ship.GetPlanet = true) := by
    simp [isGeneric, String.isEmpty_iff]
  refine ⟨d, hd, ?_, ?_, ?_, ?_, ?_, ?_, ?_, ?_, ?_, ?_, ?_, ?_, ?_, ?_⟩
  · intro h; simp [forwardThrust, h]
  · intro h; simp [forwardThrust, h]
  · intro h; simp [fullMass, hgen.mpr h]
  · intro h
    have : isGeneric ship = false := by
      cases hg : isGeneric ship
      · rfl
      · exact absurd (hgen.mp hg) h
    simp [fullMass, this]
  · rw [hl]; simp [headLines]
  · rw [hv, ← NumberQuotient_of_ne_zero E _ hdrag]; simp [headLines]
  · rw [hl]; simp [headLines]
  · rw [hv, ← NumberQuotient_of_ne_zero E _ hmass]
    cases hm : isGenericMovement ship <;> simp [headLines, hm]
  · rw [hl]; simp [headLines]
  · rw [hv, ← NumberQuotient_of_ne_zero E _ hmass]
    cases hm : isGenericMovement ship <;> simp [headLines, hm]
  · intro h
    exact ⟨NumberQuotient_of_ne_zero E _ h, NumberQuotient_of_ne_zero E _ h⟩
  · exact div_mul_cancel₀ _ hdrag
  · exact div_mul_cancel₀ _ hmass
  · exact div_mul_cancel₀ _ hmass

/-- C13, witness: the example hull on sale (thrust 20, drag 2, turn 300, mass
100, cargo space 50) shows a maximum speed of 600, accelerations 480 and 720,
and turning rates 120 and 180; the same hull with empty mass 0 has full mass 50
and shows the acceleration 1440 followed by what is printed for an infinity. -/
theorem movement_figures_witness :
    ((exampleDepreciation.Value exampleFreighter 0 = exampleFreighter.Cost
        ∨ exampleFreighter.Cost ≠ 0)
      ∧ exampleFreighter.Attributes.Get "drag" ≠ 0 ∧ fullMass exampleFreighter ≠ 0
      ∧ ∃ d, UpdateAttributes exampleEnv exampleFreighter exampleDepreciation 0 {} = some d
          ∧ d.attributeValues[10]? = some "600"
          ∧ d.attributeValues[11]? = some "480 / 720"
          ∧ d.attributeValues[12]? = some "120 / 180")
      ∧ ((exampleDepreciation.Value exampleWeightless 0 = exampleWeightless.Cost
            ∨ exampleWeightless.Cost ≠ 0)
        ∧ exampleWeightless.Attributes.Get "drag" ≠ 0 ∧ fullMass exampleWeightless ≠ 0
        ∧ ∃ d, UpdateAttributes exampleEnv exampleWeightless exampleDepreciation 0 {} = some d
            ∧ d.attributeValues[10]? = some "600"
            ∧ d.attributeValues[11]? = some "1440 / inf") := by
  have h1 : exampleDepreciation.Value exampleFreighter 0 = exampleFreighter.Cost
      ∨ exampleFreighter.Cost ≠ 0 := by decide!
  have h2 : exampleFreighter.Attributes.Get "drag" ≠ 0 := by decide!
  have h3 : fullMass exampleFreighter ≠ 0 := by decide!
  have k1 : exampleDepreciation.Value exampleWeightless 0 = exampleWeightless.Cost
      ∨ exampleWeightless.Cost ≠ 0 := by decide!
  have k2 : exampleWeightless.Attributes.Get "drag" ≠ 0 := by decide!
  have k3 : fullMass exampleWeightless ≠ 0 := by decide!
  obtain ⟨d, hd, -, -, -, -, -, hv, -⟩ :=
    movement_figures exampleEnv exampleFreighter exampleDepreciation 0 {} h1 h2 h3
  obtain ⟨d', hd', -, -, -, -, -, hv', -⟩ :=
    movement_figures exampleEnv exampleWeightless exampleDepreciation 0 {} k1 k2 k3
  have e : UpdateAttributes exampleEnv exampleFreighter exampleDepreciation 0 {} = some d := hd
  have e' : UpdateAttributes exampleEnv exampleWeightless exampleDepreciation 0 {} = some d' :=
    hd'
  refine ⟨⟨h1, h2, h3, d, hd, hv.trans (by decide!), ?_, ?_⟩,
    ⟨k1, k2, k3, d', hd', hv'.trans (by decide!), ?_⟩⟩
  · have : (UpdateAttributes exampleEnv exampleFreighter exampleDepreciation 0 {}).map
        (fun d => d.attributeValues[11]?) = some (some "480 / 720") := by decide!
    rw [e] at this
    exact Option.some.inj this
  · have : (UpdateAttributes exampleEnv exampleFreighter exampleDepreciation 0 {}).map
        (fun d => d.attributeValues[12]?) = some (some "120 / 180") := by decide!
    rw [e] at this
    exact Option.some.inj this
  · have : (UpdateAttributes exampleEnv exampleWeightless exampleDepreciation 0 {}).map
        (fun d => d.attributeValues[11]?) = some (some "1440 / inf") := by decide!
    rw [e'] at this
    exact Option.some.inj this

/-- The generic flag of line 117: the ship has no name or is docked. -/
theorem isGeneric_iff (ship : Ship) :
    isGeneric ship = true ↔ (ship.Name = "" ∨ ship.GetPlanet = true) := by
  simp [isGeneric, String.isEmpty_iff]

/-- The narrowed flag of line 226: the ship is generic and its empty mass plus
its cargo space differs from its empty mass. -/
theorem isGenericMovement_iff (ship : Ship) :
    isGenericMovement ship = true
      ↔ ((ship.Name = "" ∨ ship.GetPlanet = true)
          ∧ ship.Mass + ship.Attributes.Get "cargo space" ≠ ship.Mass) := by
  unfold isGenericMovement fullMass
  cases hg : isGeneric ship
  · have : ¬ (ship.Name = "" ∨ ship.GetPlanet = true) := by
      rw [← isGeneric_iff, hg]; simp
    simp [this]
  · have : ship.Name = "" ∨ ship.GetPlanet = true := (isGeneric_iff ship).mp hg
    simp [this]

/-- C14: the movement header is "movement, full / no cargo:", and the
acceleration and turning values are pairs "full / empty", if and only if the
ship is generic (no name, or docked) and its empty mass plus its cargo space
differs from its empty mass; otherwise the header is "movement:" and both values
are single.  Every figure is the result of `Format::Number` on a quotient by
the full or by the empty mass, whether or not that mass is zero.  The labels of
the mass, cargo and fuel lines follow the generic flag alone. -/
theorem generic_narrowing (E : Env) (ship : Ship) (depreciation : Depreciation)
    (day : Int) (self : Display)
    (hdef : depreciation.Value ship day = ship.Cost ∨ ship.Cost ≠ 0) :
    ∃ d, UpdateAttributes E ship depreciation day self = some d
      ∧ (d.attributeLabels[9]? = some "movement, full / no cargo:"
          ↔ ((ship.Name = "" ∨ ship.GetPlanet = true)
              ∧ ship.Mass + ship.Attributes.Get "cargo space" ≠ ship.Mass))
      ∧ (((ship.Name = "" ∨ ship.GetPlanet = true)
            ∧ ship.Mass + ship.Attributes.Get "cargo space" ≠ ship.Mass) →
          d.attributeValues[11]? = some
              (E.NumberQuotient (3600 * forwardThrust ship)
                  (ship.Mass + ship.Attributes.Get "cargo space") ++ " / "
                ++ E.NumberQuotient (3600 * forwardThrust ship) ship.Mass)
            ∧ d.attributeValues[12]? = some
              (E.NumberQuotient (60 * ship.Attributes.Get "turn")
                  (ship.Mass + ship.Attributes.Get "cargo space") ++ " / "
                ++ E.NumberQuotient (60 * ship.Attributes.Get "turn") ship.Mass))
      ∧ (¬ ((ship.Name = "" ∨ ship.GetPlanet = true)
            ∧ ship.Mass + ship.Attributes.Get "cargo space" ≠ ship.Mass) →
          d.attributeLabels[9]? = some "movement:"
            ∧ d.attributeValues[11]? = some
              (E.NumberQuotient (3600 * forwardThrust ship) (fullMass ship))
            ∧ d.attributeValues[12]? = some
              (E.NumberQuotient (60 * ship.Attributes.Get "turn") (fullMass ship)))
      ∧ ((ship.Name = "" ∨ ship.GetPlanet = true) →
          d.attributeLabels[4]? = some "mass with no cargo:"
            ∧ d.attributeLabels[5]? = some "cargo space:"
            ∧ d.attributeLabels[7]? = some "fuel capacity:")
      ∧ (¬ (ship.Name = "" ∨ ship.GetPlanet = true) →
          d.attributeLabels[4]? = some "mass:"
            ∧ d.attributeLabels[5]? = some "cargo:"
            ∧ d.attributeLabels[7]? = some "fuel:") := by
  obtain ⟨d, hd, hl, hv, -⟩ := UpdateAttributes_spec E ship depreciation day self hdef
  refine ⟨d, hd, ?_, ?_, ?_, ?_, ?_⟩
  · rw [← isGenericMovement_iff, hl]
    cases hm : isGenericMovement ship <;> simp [headLines, hm]
  · intro hc
    have hm := (isGenericMovement_iff ship).mpr hc
    have hf : fullMass ship = ship.Mass + ship.Attributes.Get "cargo space" := by
      simp [fullMass, (isGeneric_iff ship).mpr hc.1]
    rw [hv, ← hf]
    simp [headLines, hm]
  · intro hc
    have hm : isGenericMovement ship = false := by
      cases h : isGenericMovement ship
      · rfl
      · exact absurd ((isGenericMovement_iff ship).mp h) hc
    rw [hl, hv]
    simp [headLines, hm]
  · intro hg
    have := (isGeneric_iff ship).mpr hg
    rw [hl]
    simp [headLines, this]
  · intro hg
    have : isGeneric ship = false := by
      cases h : isGeneric ship
      · rfl
      · exact absurd ((isGeneric_iff ship).mp h) hg
    rw [hl]
    simp [headLines, this]

/-- C14, witness: the example hull on sale is generic and has cargo space, so
its movement lines are pairs; so are those of the same hull with empty mass 0,
whose second figures are what is printed for an infinity. -/
theorem generic_narrowing_witness :
    ((exampleDepreciation.Value exampleFreighter 0 = exampleFreighter.Cost
        ∨ exampleFreighter.Cost ≠ 0)
      ∧ ((exampleFreighter.Name = "" ∨ exampleFreighter.GetPlanet = true)
          ∧ exampleFreighter.Mass + exampleFreighter.Attributes.Get "cargo space"
              ≠ exampleFreighter.Mass)
      ∧ ∃ d, UpdateAttributes exampleEnv exampleFreighter exampleDepreciation 0 {} = some d
          ∧ d.attributeLabels[9]? = some "movement, full / no cargo:"
          ∧ d.attributeLabels[4]? = some "mass with no cargo:"
          ∧ d.attributeValues[11]? = some "480 / 720"
          ∧ d.attributeValues[12]? = some "120 / 180")
      ∧ ((exampleDepreciation.Value exampleWeightless 0 = exampleWeightless.Cost
            ∨ exampleWeightless.Cost ≠ 0)
        ∧ ((exampleWeightless.Name = "" ∨ exampleWeightless.GetPlanet = true)
            ∧ exampleWeightless.Mass + exampleWeightless.Attributes.Get "cargo space"
                ≠ exampleWeightless.Mass)
        ∧ ∃ d, UpdateAttributes exampleEnv exampleWeightless exampleDepreciation 0 {} = some d
            ∧ d.attributeLabels[9]? = some "movement, full / no cargo:"
            ∧ d.attributeValues[11]? = some "1440 / inf"
            ∧ d.attributeValues[12]? = some "360 / inf") := by
  have h1 : exampleDepreciation.Value exampleFreighter 0 = exampleFreighter.Cost
      ∨ exampleFreighter.Cost ≠ 0 := by decide!
  have h2 : (exampleFreighter.Name = "" ∨ exampleFreighter.GetPlanet = true)
      ∧ exampleFreighter.Mass + exampleFreighter.Attributes.Get "cargo space"
          ≠ exampleFreighter.Mass := by decide!
  have k1 : exampleDepreciation.Value exampleWeightless 0 = exampleWeightless.Cost
      ∨ exampleWeightless.Cost ≠ 0 := by decide!
  have k2 : (exampleWeightless.Name = "" ∨ exampleWeightless.GetPlanet = true)
      ∧ exampleWeightless.Mass + exampleWeightless.Attributes.Get "cargo space"
          ≠ exampleWeightless.Mass := by decide!
  obtain ⟨d, hd, hiff, hpair, -, hgen, -⟩ :=
    generic_narrowing exampleEnv exampleFreighter exampleDepreciation 0 {} h1
  obtain ⟨d', hd', hiff', hpair', -⟩ :=
    generic_narrowing exampleEnv exampleWeightless exampleDepreciation 0 {} k1
  exact ⟨⟨h1, h2, d, hd, hiff.mpr h2, (hgen h2.1).1, (hpair h2).1.trans (by decide!),
      (hpair h2).2.trans (by decide!)⟩,
    ⟨k1, k2, d', hd', hiff'.mpr k2, (hpair' k2).1.trans (by decide!),
      (hpair' k2).2.trans (by decide!)⟩⟩

/-- C15: when the depreciated value equals the full cost the first label is
"cost:"; otherwise, when the full cost is not zero, it is "cost (P%):" with `P`
the truncated quotient of `100 * value` by the full cost.  The division is not
guarded: `UpdateAttributes` divides by zero, and so has no result, exactly when
the full cost is zero and the value is not, which happens for the example wreck
valued at 1; it never does when the full cost is not zero. -/
theorem cost_line (E : Env) (ship : Ship) (depreciation : Depreciation)
    (day : Int) (self : Display) :
    (depreciation.Value ship day = ship.Cost →
        ∃ d, UpdateAttributes E ship depreciation day self = some d
          ∧ d.attributeLabels[0]? = some "cost:")
      ∧ (depreciation.Value ship day ≠ ship.Cost → ship.Cost ≠ 0 →
        ∃ d, UpdateAttributes E ship depreciation day self = some d
          ∧ d.attributeLabels[0]? = some
              ("cost (" ++ toString ((100 * depreciation.Value ship day).tdiv ship.Cost)
                ++ "%):")
          ∧ div64 (100 * depreciation.Value ship day) ship.Cost
              = some ((100 * depreciation.Value ship day).tdiv ship.Cost))
      ∧ (UpdateAttributes E ship depreciation day self = none
          ↔ (ship.Cost = 0 ∧ depreciation.Value ship day ≠ 0))
      ∧ (ship.Cost ≠ 0 → UpdateAttributes E ship depreciation day self ≠ none)
      ∧ (∀ a : Int, div64 a 0 = none)
      ∧ (exampleWreck.Cost = 0 ∧ exampleArrears.Value exampleWreck day ≠ 0
          ∧ UpdateAttributes E exampleWreck exampleArrears day self = none) := by
  have hnone : UpdateAttributes E ship depreciation day self = none
      ↔ (ship.Cost = 0 ∧ depreciation.Value ship day ≠ 0) := by
    constructor
    · intro hn
      by_contra hc
      have hdef : depreciation.Value ship day = ship.Cost ∨ ship.Cost ≠ 0 := by
        by_cases h0 : ship.Cost = 0
        · left
          by_contra hv
          exact hc ⟨h0, by rwa [h0] at hv⟩
        · exact Or.inr h0
      obtain ⟨d, hd, -⟩ := UpdateAttributes_spec E ship depreciation day self hdef
      rw [hn] at hd
      exact Option.noConfusion hd
    · rintro ⟨h0, hv⟩
      exact UpdateAttributes_eq_none E ship depreciation day self (by rwa [h0]) h0
  refine ⟨?_, ?_, hnone, ?_, ?_, rfl, by simp [exampleArrears], ?_⟩
  · intro he
    obtain ⟨d, hd, hl, -⟩ := UpdateAttributes_spec E ship depreciation day self (Or.inl he)
    refine ⟨d, hd, ?_⟩
    rw [hl]; simp [headLines, costLabel, he]
  · intro hne h0
    obtain ⟨d, hd, hl, -⟩ := UpdateAttributes_spec E ship depreciation day self (Or.inr h0)
    refine ⟨d, hd, ?_, div64_eq_some h0⟩
    rw [hl]; simp [headLines, costLabel, hne]
  · intro h0 hn
    exact h0 (hnone.mp hn).1
  · intro a
    simp [div64]
  · exact UpdateAttributes_eq_none E exampleWreck exampleArrears day self
      (by simp [exampleArrears, exampleWreck]) rfl

/-- C15, witness: the example ship on day 1 is worth 1200 of its 1600 and its
first label is "cost (75%):". -/
theorem cost_line_witness :
    exampleDepreciation.Value exampleShip 1 ≠ exampleShip.Cost ∧ exampleShip.Cost ≠ 0
      ∧ ∃ d, UpdateAttributes exampleEnv exampleShip exampleDepreciation 1 {} = some d
          ∧ d.attributeLabels[0]? = some "cost (75%):" := by
  have h1 : exampleDepreciation.Value exampleShip 1 ≠ exampleShip.Cost := by decide!
  have h2 : exampleShip.Cost ≠ 0 := by decide!
  obtain ⟨d, hd, hl, -⟩ :=
    (cost_line exampleEnv exampleShip exampleDepreciation 1 {}).2.1 h1 h2
  exact ⟨h1, h2, d, hd, hl.trans (by decide!)⟩

/-- C17: the attribute height is `410 + 20 * k` and the attribute list has
`14 + k` lines, where `k` counts the slot keys with positive capacity, plus one
when the free drone bays are not zero and one when the free fighter bays are not
zero; `k` is at most 10, so the height lies between 410 and 610. -/
theorem attributesHeight_closed_form (E : Env) (ship : Ship) (depreciation : Depreciation)
    (day : Int) (self : Display)
    (hdef : depreciation.Value ship day = ship.Cost ∨ ship.Cost ≠ 0) :
    ∃ d, UpdateAttributes E ship depreciation day self = some d
      ∧ d.attributesHeight
          = 410 + 20 * (((atts.filter
                (fun k => 0 < StdMap.get 0 (attributeMapBase ship) k)).length
              + (if ship.BaysFree false ≠ 0 then 1 else 0)
              + (if ship.BaysFree true ≠ 0 then 1 else 0) : Nat) : Int)
      ∧ d.attributeLabels.length
          = 14 + ((atts.filter (fun k => 0 < StdMap.get 0 (attributeMapBase ship) k)).length
              + (if ship.BaysFree false ≠ 0 then 1 else 0)
              + (if ship.BaysFree true ≠ 0 then 1 else 0))
      ∧ d.attributeValues.length
          = 14 + ((atts.filter (fun k => 0 < StdMap.get 0 (attributeMapBase ship) k)).length
              + (if ship.BaysFree false ≠ 0 then 1 else 0)
              + (if ship.BaysFree true ≠ 0 then 1 else 0))
      ∧ (atts.filter (fun k => 0 < StdMap.get 0 (attributeMapBase ship) k)).length
              + (if ship.BaysFree false ≠ 0 then 1 else 0)
              + (if ship.BaysFree true ≠ 0 then 1 else 0) ≤ 10
      ∧ 410 ≤ d.attributesHeight
      ∧ d.attributesHeight ≤ 610 := by
  obtain ⟨d, hd, hl, hv, hh, -⟩ := UpdateAttributes_spec E ship depreciation day self hdef
  have hbay : (bayLines ship).length
      = (if ship.BaysFree false ≠ 0 then 1 else 0)
        + (if ship.BaysFree true ≠ 0 then 1 else 0) := by
    unfold bayLines; split_ifs <;> rfl
  have hslots : (shownSlots ship).length
      = (atts.filter (fun k => 0 < StdMap.get 0 (attributeMapBase ship) k)).length := rfl
  have h8 : (atts.filter (fun k => 0 < StdMap.get 0 (attributeMapBase ship) k)).length ≤ 8 :=
    List.length_filter_le _ _
  have h2 : (if ship.BaysFree false ≠ 0 then 1 else 0)
      + (if ship.BaysFree true ≠ 0 then 1 else 0) ≤ 2 := by
    split_ifs <;> omega
  have hheight : d.attributesHeight
      = 410 + 20 * (((atts.filter
            (fun k => 0 < StdMap.get 0 (attributeMapBase ship) k)).length
          + (if ship.BaysFree false ≠ 0 then 1 else 0)
          + (if ship.BaysFree true ≠ 0 then 1 else 0) : Nat) : Int) := by
    rw [hh, hbay, hslots]
    push_cast
    ring
  refine ⟨d, hd, hheight, ?_, ?_, by omega, by omega, by omega⟩
  · rw [hl]
    simp only [List.length_append, List.length_map, hbay, hslots]
    simp only [headLines, List.length_cons, List.length_nil]
    omega
  · rw [hv]
    simp only [List.length_append, List.length_map, hbay, hslots]
    simp only [headLines, List.length_cons, List.length_nil]
    omega

/-- C17, witness: the example ship shows two slot lines and no bay line: height
450 and sixteen lines. -/
theorem attributesHeight_closed_form_witness :
    (exampleDepreciation.Value exampleShip 0 = exampleShip.Cost ∨ exampleShip.Cost ≠ 0)
      ∧ ∃ d, UpdateAttributes exampleEnv exampleShip exampleDepreciation 0 {} = some d
          ∧ d.attributesHeight = 450 ∧ d.attributeLabels.length = 16 := by
  have h1 : exampleDepreciation.Value exampleShip 0 = exampleShip.Cost
      ∨ exampleShip.Cost ≠ 0 := by decide!
  obtain ⟨d, hd, hh, hl, -⟩ :=
    attributesHeight_closed_form exampleEnv exampleShip exampleDepreciation 0 {} h1
  exact ⟨h1, d, hd, hh.trans (by decide!), hl.trans (by decide!)⟩


/-- C16: after any `Update` the attribute labels and values have the same
length, so have the outfit labels and values, the sale labels and values both
have length 3, and the table labels, the energy column and the heat column all
have length 5, the labels being those of idle, moving, firing, regen and max in
this order; hence every index below the number of table labels, as used by the
loop of `DrawAttributes`, is in range for both columns. -/
theorem parallel_lists (E : Env) (ship : Ship) (depreciation : Depreciation)
    (day : Int) (self : Display)
    (hdef : depreciation.Value ship day = ship.Cost ∨ ship.Cost ≠ 0) :
    ∃ d, Update E ship depreciation day self = some d
      ∧ d.attributeLabels.length = d.attributeValues.length
      ∧ d.outfitLabels.length = d.outfitValues.length
      ∧ d.saleLabels.length = 3 ∧ d.saleValues.length = 3
      ∧ d.tableLabels = ["idle:", "moving:", "firing:", regenLabel ship, "max:"]
      ∧ d.tableLabels.length = 5 ∧ d.energyTable.length = 5 ∧ d.heatTable.length = 5
      ∧ (∀ i, i < d.tableLabels.length →
          (d.energyTable[i]?).isSome = true ∧ (d.heatTable[i]?).isSome = true) := by
  obtain ⟨a, ha, hu⟩ := Update_full E ship depreciation day self hdef
  obtain ⟨a', ha', hl, hv, -, ht, he, hq, -⟩ :=
    UpdateAttributes_spec E ship depreciation day {} hdef
  have e : a' = a := Option.some.inj (ha'.symm.trans ha)
  subst e
  obtain ⟨ol, ov, -⟩ := UpdateOutfits_spec E ship depreciation day a'
  have hAL : (UpdateOutfits E ship depreciation day a').attributeLabels = a'.attributeLabels :=
    rfl
  have hAV : (UpdateOutfits E ship depreciation day a').attributeValues = a'.attributeValues :=
    rfl
  have hT : (UpdateOutfits E ship depreciation day a').tableLabels = a'.tableLabels := rfl
  have hE : (UpdateOutfits E ship depreciation day a').energyTable = a'.energyTable := rfl
  have hQ : (UpdateOutfits E ship depreciation day a').heatTable = a'.heatTable := rfl
  have hSL : (UpdateOutfits E ship depreciation day a').saleLabels.length = 3 := rfl
  have hSV : (UpdateOutfits E ship depreciation day a').saleValues.length = 3 := rfl
  refine ⟨_, hu, ?_, ?_, hSL, hSV, ?_, ?_, ?_, ?_, ?_⟩
  · show (UpdateOutfits E ship depreciation day a').attributeLabels.length
      = (UpdateOutfits E ship depreciation day a').attributeValues.length
    rw [hAL, hAV, hl, hv]
    simp
  · show (UpdateOutfits E ship depreciation day a').outfitLabels.length
      = (UpdateOutfits E ship depreciation day a').outfitValues.length
    rw [ol, ov]
    simp
  · show (UpdateOutfits E ship depreciation day a').tableLabels = _
    rw [hT, ht]
  · show (UpdateOutfits E ship depreciation day a').tableLabels.length = 5
    rw [hT, ht]; rfl
  · show (UpdateOutfits E ship depreciation day a').energyTable.length = 5
    rw [hE, he]; rfl
  · show (UpdateOutfits E ship depreciation day a').heatTable.length = 5
    rw [hQ, hq]; rfl
  · intro i hi
    have hi5 : i < 5 := by
      have : (UpdateOutfits E ship depreciation day a').tableLabels.length = 5 := by
        rw [hT, ht]; rfl
      exact this ▸ hi
    have hEl : (UpdateOutfits E ship depreciation day a').energyTable.length = 5 := by
      rw [hE, he]; rfl
    have hQl : (UpdateOutfits E ship depreciation day a').heatTable.length = 5 := by
      rw [hQ, hq]; rfl
    constructor
    · show ((UpdateOutfits E ship depreciation day a').energyTable[i]?).isSome = true
      rw [List.getElem?_eq_getElem (by omega)]; rfl
    · show ((UpdateOutfits E ship depreciation day a').heatTable[i]?).isSome = true
      rw [List.getElem?_eq_getElem (by omega)]; rfl

/-- C16, witness: the example ship, updated from a display whose lists are out
of step. -/
theorem parallel_lists_witness :
    (exampleDepreciation.Value exampleShip 1 = exampleShip.Cost ∨ exampleShip.Cost ≠ 0)
      ∧ ∃ d, Update exampleEnv exampleShip exampleDepreciation 1
            { attributeLabels := ["stale"], tableLabels := ["old:", "older:"],
              energyTable := ["1"], saleLabels := ["y"] } = some d
          ∧ d.attributeLabels.length = d.attributeValues.length
          ∧ d.tableLabels.length = 5 ∧ d.energyTable.length = 5 ∧ d.heatTable.length = 5 := by
  have h1 : exampleDepreciation.Value exampleShip 1 = exampleShip.Cost
      ∨ exampleShip.Cost ≠ 0 := by decide!
  obtain ⟨d, hd, hA, -, -, -, -, hT, hE, hQ, -⟩ :=
    parallel_lists exampleEnv exampleShip exampleDepreciation 1
      { attributeLabels := ["stale"], tableLabels := ["old:", "older:"],
        energyTable := ["1"], saleLabels := ["y"] } h1
  exact ⟨h1, d, hd, hA, hT, hE, hQ⟩


/-! ## Invariance of the outfit list -/

/-- The statement `m[name] += q` raises the sum of the counts of `m` by `q`. -/
theorem sum_modify_count (m : StdMap Int) (n : String) (q : Int) :
    ((StdMap.modify (fun x => x + q) 0 n m).map (fun it => it.2)).sum
      = (m.map (fun it => it.2)).sum + q := by
  induction m with
  | nil => simp [StdMap.modify]
  | cons e m ih =>
    obtain ⟨k, v⟩ := e
    unfold StdMap.modify
    by_cases h1 : n < k
    · simp [h1]; ring
    · by_cases h2 : n = k
      · simp [h1, h2]; ring
      · simp only [if_neg h1, if_neg h2, List.map_cons, List.sum_cons, ih]
        ring

/-- The statement `listing[category][name] += q` raises the sum of the counts of
the listing by `q`. -/
theorem sum_shownCounts_modify (L : StdMap (StdMap Int)) (c n : String) (q : Int) :
    (shownCounts (StdMap.modify (StdMap.modify (fun x => x + q) 0 n) [] c L)).sum
      = (shownCounts L).sum + q := by
  induction L with
  | nil => simp [StdMap.modify, shownCounts]
  | cons e L ih =>
    obtain ⟨k, m⟩ := e
    have hcons : ∀ (k' : String) (m' : StdMap Int) (L' : StdMap (StdMap Int)),
        (shownCounts ((k', m') :: L')).sum
          = (m'.map (fun it => it.2)).sum + (shownCounts L').sum := by
      intro k' m' L'
      simp [shownCounts, List.flatMap_cons]
    unfold StdMap.modify
    by_cases h1 : c < k
    · rw [if_pos h1, hcons, hcons]
      simp [StdMap.modify]
      ring
    · by_cases h2 : c = k
      · rw [if_neg h1, if_pos h2, hcons, hcons, sum_modify_count]
        ring
      · rw [if_neg h1, if_neg h2, hcons, hcons, ih]
        ring

/-- The counts of the listing add up to the installed quantities. -/
theorem sum_shownCounts_listing (outfits : List (Outfit × Int)) :
    (shownCounts (listing outfits)).sum = (outfits.map (fun it => it.2)).sum := by
  induction outfits using List.reverseRecOn with
  | nil => rfl
  | append_singleton outfits x ih =>
    rw [listing_append_singleton, sum_shownCounts_modify, ih]
    simp

/-- The nonempty values of a category block are the printed counts. -/
theorem categoryBlock_values (outfits : List (Outfit × Int)) (index : Nat) (c : String) :
    ((categoryBlock outfits index c).map Prod.snd).filter (fun v => v != "")
      = (namesIn outfits c).map (fun n => toString (quantity outfits c n)) := by
  have hnames : ∀ names : List String,
      ((names.map (fun n => (n, toString (quantity outfits c n)))).map Prod.snd).filter
          (fun v => v != "")
        = names.map (fun n => toString (quantity outfits c n)) := by
    intro names
    induction names with
    | nil => rfl
    | cons n names ih =>
      have := toString_int_ne_empty (quantity outfits c n)
      simp only [List.map_cons, List.filter_cons, bne_iff_ne, ne_eq, this, not_false_eq_true,
        if_true, ih]
  unfold categoryBlock
  rw [List.map_append, List.map_append, List.filter_append, List.filter_append, hnames]
  by_cases h : index = 0
  · simp [h, List.filter_cons]
  · simp [h, List.filter_cons]

/-- The nonempty values of the outfit list are the counts of the listing, in
order. -/
theorem listedOutfits_values (outfits : List (Outfit × Int)) :
    ((listedOutfits outfits).map Prod.snd).filter (fun v => v != "")
      = (shownCounts (listing outfits)).map toString := by
  have hL : shownCounts (listing outfits)
      = (categories outfits).flatMap
          (fun c => (namesIn outfits c).map (fun n => quantity outfits c n)) := by
    rw [listing_eq]
    simp [shownCounts, List.flatMap_map, Function.comp_def]
  have hB : ∀ (cats : List String) (start : Nat),
      (((cats.enumFrom start).flatMap
          (fun ic => categoryBlock outfits ic.1 ic.2)).map Prod.snd).filter (fun v => v != "")
        = (cats.flatMap
            (fun c => (namesIn outfits c).map (fun n => quantity outfits c n))).map toString := by
    intro cats
    induction cats with
    | nil => intro start; rfl
    | cons c cats ih =>
      intro start
      rw [List.enumFrom_cons, List.flatMap_cons, List.map_append, List.filter_append,
        categoryBlock_values, ih, List.flatMap_cons, List.map_append, List.map_map]
      rfl
  rw [hL]
  exact hB (categories outfits) 0

/-- Two outfit maps with the same (category, name) pairs and the same summed
quantities give the same listing. -/
theorem listing_eq_of_quantity {outfits outfits' : List (Outfit × Int)}
    (hmem : ∀ c n, (∃ it ∈ outfits, it.1.Category = c ∧ it.1.Name = n)
      ↔ (∃ it ∈ outfits', it.1.Category = c ∧ it.1.Name = n))
    (hqty : ∀ c n, quantity outfits c n = quantity outfits' c n) :
    listing outfits = listing outfits' := by
  obtain ⟨hwf, hinner, hcat, hq⟩ := listing_invariant outfits
  obtain ⟨hwf', hinner', hcat', hq'⟩ := listing_invariant outfits'
  have hget : ∀ c, StdMap.get [] (listing outfits) c = StdMap.get [] (listing outfits') c := by
    intro c
    apply StdMap.ext (hinner c) (hinner' c)
    intro n
    rw [hq c n, hq' c n, hqty c n]
    by_cases h : ∃ it ∈ outfits, it.1.Category = c ∧ it.1.Name = n
    · rw [if_pos h, if_pos ((hmem c n).mp h)]
    · rw [if_neg h, if_neg (fun h' => h ((hmem c n).mpr h'))]
  have hcats : ∀ c, (∃ it ∈ outfits, it.1.Category = c) ↔ (∃ it ∈ outfits', it.1.Category = c) := by
    intro c
    constructor
    · rintro ⟨it, hit, hc⟩
      obtain ⟨it', hit', hc', -⟩ := (hmem c it.1.Name).mp ⟨it, hit, hc, rfl⟩
      exact ⟨it', hit', hc'⟩
    · rintro ⟨it, hit, hc⟩
      obtain ⟨it', hit', hc', -⟩ := (hmem c it.1.Name).mpr ⟨it, hit, hc, rfl⟩
      exact ⟨it', hit', hc'⟩
  apply StdMap.ext hwf hwf'
  intro c
  have h1 := hcat c
  have h2 := hcat' c
  have h3 := hget c
  unfold StdMap.get at h3
  cases hf : StdMap.find (listing outfits) c with
  | none =>
    cases hf' : StdMap.find (listing outfits') c with
    | none => rfl
    | some m' =>
      rw [hf] at h1
      rw [hf'] at h2
      have := (hcats c).mpr (h2.mp rfl)
      exact absurd (h1.mpr this) (by simp)
  | some m =>
    cases hf' : StdMap.find (listing outfits') c with
    | none =>
      rw [hf] at h1
      rw [hf'] at h2
      have := (hcats c).mp (h1.mp rfl)
      exact absurd (h2.mpr this) (by simp)
    | some m' =>
      rw [hf, hf'] at h3
      simpa using h3

/-- The pairs and the summed quantities seen through the triples. -/
theorem mem_pair_iff_triples (outfits : List (Outfit × Int)) (c n : String) :
    (∃ it ∈ outfits, it.1.Category = c ∧ it.1.Name = n)
      ↔ ∃ t ∈ triples outfits, t.1 = c ∧ t.2.1 = n := by
  constructor
  · rintro ⟨it, hit, hc, hn⟩
    exact ⟨(it.1.Category, it.1.Name, it.2), List.mem_map.mpr ⟨it, hit, rfl⟩, hc, hn⟩
  · rintro ⟨t, ht, hc, hn⟩
    obtain ⟨it, hit, rfl⟩ := List.mem_map.mp ht
    exact ⟨it, hit, hc, hn⟩

/-- The summed quantity, computed on the triples. -/
theorem quantity_eq_triples (outfits : List (Outfit × Int)) (c n : String) :
    quantity outfits c n
      = (((triples outfits).filter (fun t => t.1 = c ∧ t.2.1 = n)).map (fun t => t.2.2)).sum := by
  simp [quantity, triples, List.filter_map, Function.comp_def]

/-- The listing depends only on the multiset of the triples. -/
theorem listing_perm {outfits outfits' : List (Outfit × Int)}
    (h : (triples outfits).Perm (triples outfits')) : listing outfits = listing outfits' := by
  apply listing_eq_of_quantity
  · intro c n
    rw [mem_pair_iff_triples, mem_pair_iff_triples]
    constructor
    · rintro ⟨t, ht, hc⟩; exact ⟨t, h.mem_iff.mp ht, hc⟩
    · rintro ⟨t, ht, hc⟩; exact ⟨t, h.mem_iff.mpr ht, hc⟩
  · intro c n
    rw [quantity_eq_triples, quantity_eq_triples]
    exact ((h.filter _).map _).sum_eq

/-- The listing does not change when the quantity of one entry is split over
two entries of the same category and name. -/
theorem listing_split (pre post : List (Outfit × Int)) (o o₁ o₂ : Outfit) (q₁ q₂ : Int)
    (hc₁ : o₁.Category = o.Category) (hn₁ : o₁.Name = o.Name)
    (hc₂ : o₂.Category = o.Category) (hn₂ : o₂.Name = o.Name) :
    listing (pre ++ (o, q₁ + q₂) :: post) = listing (pre ++ (o₁, q₁) :: (o₂, q₂) :: post) := by
  apply listing_eq_of_quantity
  · intro c n
    simp only [List.mem_append, List.mem_cons]
    constructor
    · rintro ⟨it, (h | rfl | h), hcn⟩
      · exact ⟨it, Or.inl h, hcn⟩
      · exact ⟨(o₁, q₁), Or.inr (Or.inl rfl), by simpa [hc₁, hn₁] using hcn⟩
      · exact ⟨it, Or.inr (Or.inr (Or.inr h)), hcn⟩
    · rintro ⟨it, (h | rfl | rfl | h), hcn⟩
      · exact ⟨it, Or.inl h, hcn⟩
      · exact ⟨(o, q₁ + q₂), Or.inr (Or.inl rfl), by simpa [hc₁, hn₁] using hcn⟩
      · exact ⟨(o, q₁ + q₂), Or.inr (Or.inl rfl), by simpa [hc₂, hn₂] using hcn⟩
      · exact ⟨it, Or.inr (Or.inr h), hcn⟩
  · intro c n
    unfold quantity
    by_cases h : o.Category = c ∧ o.Name = n
    · simp [List.filter_append, List.filter_cons, hc₁, hn₁, hc₂, hn₂, h]
      ring
    · simp [List.filter_append, List.filter_cons, hc₁, hn₁, hc₂, hn₂, h]


/-- C18: the counts shown on the name lines of the outfit list, which are its
nonempty values, add up to the installed quantities; and the outfit list and its
height depend only on the multiset of the (category, name, quantity) triples of
the installed outfits: they are the same for any other order of the outfit map,
and the same when the quantity of an entry is split over two entries of the
same category and name. -/
theorem outfit_listing_invariance (E : Env) (ship : Ship) (depreciation : Depreciation)
    (day : Int) (self : Display) :
    (UpdateOutfits E ship depreciation day self).outfitValues.filter (fun v => v != "")
        = (shownCounts (listing ship.Outfits)).map toString
      ∧ (shownCounts (listing ship.Outfits)).sum = (ship.Outfits.map (fun it => it.2)).sum
      ∧ (∀ (E' : Env) (ship' : Ship) (depreciation' : Depreciation) (day' : Int)
          (self' : Display),
          (triples ship.Outfits).Perm (triples ship'.Outfits) →
          (UpdateOutfits E' ship' depreciation' day' self').outfitLabels
              = (UpdateOutfits E ship depreciation day self).outfitLabels
            ∧ (UpdateOutfits E' ship' depreciation' day' self').outfitValues
              = (UpdateOutfits E ship depreciation day self).outfitValues
            ∧ (UpdateOutfits E' ship' depreciation' day' self').outfitsHeight
              = (UpdateOutfits E ship depreciation day self).outfitsHeight)
      ∧ (∀ (E' : Env) (ship' : Ship) (depreciation' : Depreciation) (day' : Int)
          (self' : Display) (pre post : List (Outfit × Int)) (o o₁ o₂ : Outfit) (q₁ q₂ : Int),
          ship.Outfits = pre ++ (o, q₁ + q₂) :: post →
          ship'.Outfits = pre ++ (o₁, q₁) :: (o₂, q₂) :: post →
          o₁.Category = o.Category → o₁.Name = o.Name →
          o₂.Category = o.Category → o₂.Name = o.Name →
          (UpdateOutfits E' ship' depreciation' day' self').outfitLabels
              = (UpdateOutfits E ship depreciation day self).outfitLabels
            ∧ (UpdateOutfits E' ship' depreciation' day' self').outfitValues
              = (UpdateOutfits E ship depreciation day self).outfitValues
            ∧ (UpdateOutfits E' ship' depreciation' day' self').outfitsHeight
              = (UpdateOutfits E ship depreciation day self).outfitsHeight) := by
  have hout : ∀ (E' : Env) (ship' : Ship) (depreciation' : Depreciation) (day' : Int)
      (self' : Display), listing ship'.Outfits = listing ship.Outfits →
      (UpdateOutfits E' ship' depreciation' day' self').outfitLabels
          = (UpdateOutfits E ship depreciation day self).outfitLabels
        ∧ (UpdateOutfits E' ship' depreciation' day' self').outfitValues
          = (UpdateOutfits E ship depreciation day self).outfitValues
        ∧ (UpdateOutfits E' ship' depreciation' day' self').outfitsHeight
          = (UpdateOutfits E ship depreciation day self).outfitsHeight := by
    intro E' ship' depreciation' day' self' h
    refine ⟨?_, ?_, ?_⟩
    · show (outfitLoop (listing ship'.Outfits) ([], [], 20)).1
        = (outfitLoop (listing ship.Outfits) ([], [], 20)).1
      rw [h]
    · show (outfitLoop (listing ship'.Outfits) ([], [], 20)).2.1
        = (outfitLoop (listing ship.Outfits) ([], [], 20)).2.1
      rw [h]
    · show (outfitLoop (listing ship'.Outfits) ([], [], 20)).2.2
        = (outfitLoop (listing ship.Outfits) ([], [], 20)).2.2
      rw [h]
  refine ⟨?_, sum_shownCounts_listing ship.Outfits, ?_, ?_⟩
  · rw [(UpdateOutfits_spec E ship depreciation day self).2.1]
    exact listedOutfits_values ship.Outfits
  · intro E' ship' depreciation' day' self' hperm
    exact hout E' ship' depreciation' day' self' (listing_perm hperm).symm
  · intro E' ship' depreciation' day' self' pre post o o₁ o₂ q₁ q₂ hs hs' hc₁ hn₁ hc₂ hn₂
    apply hout
    rw [hs, hs']
    exact (listing_split pre post o o₁ o₂ q₁ q₂ hc₁ hn₁ hc₂ hn₂).symm

/-- C18, witness: the armed example ship (two lasers in one entry, then a
blaster) and the same outfits with the blaster first and the lasers in two
entries show the same outfit list, whose counts 1 and 2 add up to 3. -/
theorem outfit_listing_invariance_witness :
    (triples exampleArmed.Outfits).Perm (triples [(exampleBlaster, 1), (exampleLaser, 2)])
      ∧ (UpdateOutfits exampleEnv exampleRearmed exampleDepreciation 0 {}).outfitLabels
          = (UpdateOutfits exampleEnv exampleArmed exampleDepreciation 0 {}).outfitLabels
      ∧ (UpdateOutfits exampleEnv exampleRearmed exampleDepreciation 0 {}).outfitValues
          = (UpdateOutfits exampleEnv exampleArmed exampleDepreciation 0 {}).outfitValues
      ∧ (UpdateOutfits exampleEnv exampleRearmed exampleDepreciation 0 {}).outfitsHeight
          = (UpdateOutfits exampleEnv exampleArmed exampleDepreciation 0 {}).outfitsHeight
      ∧ (UpdateOutfits exampleEnv exampleArmed exampleDepreciation 0 {}).outfitValues.filter
            (fun v => v != "") = ["1", "2"]
      ∧ (exampleArmed.Outfits.map (fun it => it.2)).sum = 3 := by
  have hperm : (triples exampleArmed.Outfits).Perm
      (triples [(exampleBlaster, 1), (exampleLaser, 2)]) := List.Perm.swap _ _ _
  have h := outfit_listing_invariance exampleEnv exampleArmed exampleDepreciation 0 {}
  have h1 := h.2.2.1 exampleEnv
    { exampleArmed with Outfits := [(exampleBlaster, 1), (exampleLaser, 2)] }
    exampleDepreciation 0 {} hperm
  have h2 := (outfit_listing_invariance exampleEnv
    { exampleArmed with Outfits := [(exampleBlaster, 1), (exampleLaser, 2)] }
    exampleDepreciation 0 {}).2.2.2 exampleEnv exampleRearmed exampleDepreciation 0 {}
    [(exampleBlaster, 1)] [] exampleLaser exampleLaser exampleLaser 1 1 rfl rfl rfl rfl rfl rfl
  exact ⟨hperm, h2.1.trans h1.1, h2.2.1.trans h1.2.1, h2.2.2.trans h1.2.2,
    h.1.trans (by decide!), by decide⟩

end ShipInfoDisplay
